import Mathlib

/-!
# Bootstrap user-data rendering (`cloud/digitalocean/actuators/machine/userdata.go`)

A shallow embedding of the Go file `userdata.go`:

* the descriptors read by the builders (`Cluster`, `Machine`, `userdataParams`);
* the helpers `endpoint` and `subnet`;
* the two template constants, copied character for character;
* the fragment of Go's `text/template` that the two constants use (literal
  text and `{{ .A.B.C }}` field chains), as a lexer, a parser and an executor
  over a reflective view of the parameters;
* the builders `masterUserdata` and `nodeUserdata`.

Go run-time faults (nil dereference, index out of range, `template.Must`) are
explicit: every operation that can fault returns in `Go`.
-/

namespace machine

/-! ## Go run-time model -/

/-- Run-time faults of a Go program: they unwind the caller, no value is returned. -/
inductive Panic where
  | nilDereference
  | indexOutOfRange (index length : Nat)
  | templateMust (msg : String)
  deriving DecidableEq

/-- A Go computation: either a fault or the returned value. -/
inductive Go (α : Type) where
  | panic (p : Panic)
  | ret (a : α)
  deriving DecidableEq

/-- Sequencing of Go computations: a fault in the first aborts the rest. -/
def Go.bind {α β : Type} (x : Go α) (f : α → Go β) : Go β :=
  match x with
  | .panic p => .panic p
  | .ret a => f a

instance : Monad Go where
  pure := Go.ret
  bind := Go.bind

/-- Go's `*p` for a pointer: a nil pointer faults. -/
def deref {α : Type} (p : Option α) : Go α :=
  match p with
  | none => .panic .nilDereference
  | some a => .ret a

/-- Go's `xs[i]` on a slice: faults when `i` is not below `len(xs)`. -/
def index {α : Type} (xs : List α) (i : Nat) : Go α :=
  match xs.get? i with
  | some a => .ret a
  | none => .panic (.indexOutOfRange i xs.length)

/-! ## Descriptors (package `clusterv1`) -/

/-- Modelled from the spec: the type `clusterv1.NetworkRanges` is declared outside this
file; an ordered sequence of CIDR blocks. -/
structure NetworkRanges where
  CIDRBlocks : List String
  deriving DecidableEq

/-- Modelled from the spec: the type `clusterv1.ClusterNetworkingConfig` is declared outside
this file; service ranges, pod ranges and the cluster DNS service domain. -/
structure ClusterNetworkingConfig where
  Services : NetworkRanges
  Pods : NetworkRanges
  ServiceDomain : String
  deriving DecidableEq

/-- Modelled from the spec: the type `clusterv1.ClusterSpec` is declared outside this file. -/
structure ClusterSpec where
  ClusterNetwork : ClusterNetworkingConfig
  deriving DecidableEq

/-- Modelled from the spec: the type `clusterv1.APIEndpoint` is declared outside this file;
a host and a port (a Go `int`). -/
structure APIEndpoint where
  Host : String
  Port : Int
  deriving DecidableEq

/-- Modelled from the spec: the type `clusterv1.ClusterStatus` is declared outside this
file; zero or more API endpoints. -/
structure ClusterStatus where
  APIEndpoints : List APIEndpoint
  deriving DecidableEq

/-- Modelled from the spec: the type `clusterv1.Cluster` is declared outside this file. -/
structure Cluster where
  Spec : ClusterSpec
  Status : ClusterStatus
  deriving DecidableEq

/-- Modelled from the spec: the type `clusterv1.MachineVersionInfo` is declared outside this
file; kubelet version and control-plane version. -/
structure MachineVersionInfo where
  Kubelet : String
  ControlPlane : String
  deriving DecidableEq

/-- Modelled from the spec: the type `clusterv1.MachineSpec` is declared outside this file. -/
structure MachineSpec where
  Versions : MachineVersionInfo
  deriving DecidableEq

/-- Modelled from the spec: the type `metav1.ObjectMeta` is declared outside this file;
the name and the namespace of an object. -/
structure ObjectMeta where
  Name : String
  Namespace : String
  deriving DecidableEq

/-- Modelled from the spec: the type `clusterv1.Machine` is declared outside this file. -/
structure Machine where
  ObjectMeta : ObjectMeta
  Spec : MachineSpec
  deriving DecidableEq

/-- The parameters used to render the environment variables of the bootstrap scripts.
The two pointer fields are `Option`s: `none` is Go's `nil`. -/
structure userdataParams where
  Machine : Option machine.Machine
  Cluster : Option machine.Cluster
  Token : String
  MasterEndpoint : String
  PodCIDR : String
  ServiceCIDR : String
  deriving DecidableEq

/-! ## `fmt` verbs used by `endpoint` -/

/-- The character of one decimal digit, `'0' + d`. -/
def digitChar (d : Nat) : Char := Char.ofNat (48 + d)

/-- The digit loop of `fmt`'s integer formatting in base 10: while `u >= 10` the last
digit is stored in front of the digits produced so far and `u` is divided by 10; the
remaining `u` is the leading digit. The first argument bounds the number of iterations. -/
def fmtDigits : Nat → Nat → List Char → List Char
  | 0, u, acc => digitChar u :: acc
  | fuel + 1, u, acc =>
    if u ≥ 10 then fmtDigits fuel (u / 10) (digitChar (u % 10) :: acc)
    else digitChar u :: acc

/-- The verb `%d` on a Go `int`: the digits of the magnitude, a `-` in front of a negative
value. Go takes the magnitude by negating in `uint64`, which is `natAbs` for every value of
a 64-bit `int`. -/
def fmtInteger (v : Int) : String :=
  let digits := fmtDigits v.natAbs v.natAbs []
  String.mk (if v < 0 then '-' :: digits else digits)

/-! ## Helpers of `userdata.go` -/

/-- Go: `fmt.Sprintf("%s:%d", apiEndpoint.Host, apiEndpoint.Port)`. -/
def endpoint (apiEndpoint : APIEndpoint) : String :=
  apiEndpoint.Host ++ ":" ++ fmtInteger apiEndpoint.Port

/-- Go: `subnet` returns the first CIDR block of the range as it stands, the empty string
when there is none. (The comment in the source says `first IP of the subnet`; the code
returns the whole block, mask included.) -/
def subnet (netRange : NetworkRanges) : Go String :=
  if netRange.CIDRBlocks.length = 0 then
    .ret ""
  else
    index netRange.CIDRBlocks 0

/-! ## The fragment of `text/template` used by the two templates -/

/-- Lexical items of a template: literal text, and the text between `{{` and `}}` with the
offset in the template of its first character. -/
inductive Item where
  | text (s : List Char)
  | action (start : Nat) (body : List Char)
  deriving DecidableEq

/-- The lexer: literal text runs up to the left delimiter `{{`, an action runs up to the
right delimiter `}}`. `pos` is the offset of the next character, `inAction` tells which of
the two is being read, `start` is the offset at which the action being read began, `cur`
holds the characters read since the last delimiter and `out` the items emitted so far. An
empty text run emits no item; an action that is not closed is an error. -/
def lexItems : List Char → Nat → Bool → Nat → List Char → List Item →
    Except String (List Item)
  | [], _, inAction, _, cur, out =>
    if inAction then .error "unclosed action"
    else .ok (if cur.isEmpty then out else out ++ [Item.text cur])
  | [c], pos, inAction, start, cur, out =>
    lexItems [] (pos + 1) inAction start (cur ++ [c]) out
  | c :: d :: rest, pos, inAction, start, cur, out =>
    if !inAction && c = '{' && d = '{' then
      lexItems rest (pos + 2) true (pos + 2) []
        (if cur.isEmpty then out else out ++ [Item.text cur])
    else if inAction && c = '}' && d = '}' then
      lexItems rest (pos + 2) false start [] (out ++ [Item.action start cur])
    else
      lexItems (d :: rest) (pos + 1) inAction start (cur ++ [c]) out

/-- Cut a character list at every occurrence of `sep`; the pieces do not contain `sep`
and there is always at least one piece. -/
def splitAt (sep : Char) : List Char → List (List Char)
  | [] => [[]]
  | c :: cs =>
    if c = sep then [] :: splitAt sep cs
    else
      match splitAt sep cs with
      | [] => [[c]]
      | l :: ls => (c :: l) :: ls

/-- Drop the spaces in front of a character list. -/
def dropSpaces : List Char → List Char
  | [] => []
  | c :: cs => if c = ' ' then dropSpaces cs else c :: cs

/-- Drop the spaces on both sides of an action body. -/
def trimSpaces (cs : List Char) : List Char :=
  (dropSpaces (dropSpaces cs).reverse).reverse

/-- The characters of a Go identifier. -/
def isIdentChar (c : Char) : Bool :=
  c.isAlphanum || c = '_'

/-- Nodes of a parsed template: literal text, and an action whose pipeline is one chain
of field names (`{{ .A.B.C }}` has the chain `A`, `B`, `C`) with the position of the node
in the template. -/
inductive Node where
  | text (s : String)
  | field (pos : Nat) (ident : List String)
  deriving DecidableEq

/-- Parse one action body that starts at offset `start`: after trimming, a dot followed by
identifiers separated by dots. Every `.Name` is one token; the node of a single token stands
at that token, the node of a longer chain stands at its second token, as in the parser of
`text/template`. Everything else that `text/template` accepts (pipelines, functions,
variables, control structures, trim markers, comments) is outside the modelled fragment. -/
def parseAction (start : Nat) (body : List Char) : Except String Node :=
  let first := start + (body.length - (dropSpaces body).length)
  match splitAt '.' (trimSpaces body) with
  | [] :: id :: ids =>
    if (id :: ids).all (fun i => !i.isEmpty && i.all isIdentChar) then
      .ok (Node.field
        (match ids with
         | [] => first
         | _ :: _ => first + 1 + id.length)
        ((id :: ids).map String.mk))
    else .error "action outside the modelled fragment"
  | _ => .error "action outside the modelled fragment"

/-- Turn the items into nodes, in order; the first action that does not parse is the
error of the whole template. -/
def parseItems : List Item → Except String (List Node)
  | [] => .ok []
  | Item.text s :: rest =>
    match parseItems rest with
    | .ok ns => .ok (Node.text (String.mk s) :: ns)
    | .error e => .error e
  | Item.action start body :: rest =>
    match parseAction start body with
    | .error e => .error e
    | .ok n =>
      match parseItems rest with
      | .ok ns => .ok (n :: ns)
      | .error e => .error e

/-- A parsed template: its name, its text and its nodes. -/
structure Template where
  name : String
  text : String
  tree : List Node
  deriving DecidableEq

/-- Go: `template.New(name).Parse(text)`. -/
def Parse (name : String) (text : String) : Except String Template :=
  match lexItems text.data 0 false 0 [] [] with
  | .error e => .error e
  | .ok items =>
    match parseItems items with
    | .error e => .error e
    | .ok ns => .ok { name := name, text := text, tree := ns }

/-- Go: `template.Must` faults when parsing failed and returns the template otherwise. -/
def Must (t : Except String Template) : Go Template :=
  match t with
  | .error e => .panic (.templateMust e)
  | .ok tmpl => .ret tmpl

/-- The reflective view that the executor has of the data it renders: strings, integers,
slices, structs with named fields, and pointers (`none` is nil). `typ` is the printed
name of the Go type. -/
inductive Value where
  | string (s : String)
  | int (i : Int)
  | slice (elems : List Value)
  | struct (typ : String) (fields : List (String × Value))
  | pointer (typ : String) (elem : Option Value)

/-- Errors of template execution. -/
inductive ExecError where
  | nilPointer (typ field : String)
  | cantEvaluateField (field typ : String)
  | notPrinted
  deriving DecidableEq

/-- What failed, as `text/template` words it. -/
def ExecError.message (e : ExecError) : String :=
  match e with
  | .nilPointer typ field => "nil pointer evaluating " ++ typ ++ "." ++ field
  | .cantEvaluateField field typ => "can't evaluate field " ++ field ++ " in type " ++ typ
  | .notPrinted => "value outside the modelled fragment"

/-- The text of a field node: every name with a dot in front. -/
def fieldContext (ident : List String) : String :=
  ident.foldr (fun i acc => "." ++ i ++ acc) ""

/-- Go: `ErrorContext` of a node at offset `pos`: the location `name:line:column`, where the
line is one more than the number of newlines in front of `pos` and the column is the number
of characters between the last of them (or the start of the text) and `pos`, and the text
of the node. -/
def Template.ErrorContext (tmpl : Template) (pos : Nat) (ident : List String) :
    String × String :=
  let before := tmpl.text.data.take pos
  let lineNum := 1 + before.count '\n'
  let byteNum := (before.reverse.takeWhile (fun ch => ch != '\n')).length
  (tmpl.name ++ ":" ++ fmtInteger lineNum ++ ":" ++ fmtInteger byteNum, fieldContext ident)

/-- Go: the message built by `errorf` during execution,
`template: location: executing "name" at <context>: ` and what failed. The template name is
quoted as it stands, which is the verb `%q` for a name without characters to escape. -/
def Template.errorf (tmpl : Template) (pos : Nat) (ident : List String) (e : ExecError) :
    String :=
  "template: " ++ (tmpl.ErrorContext pos ident).1 ++ ": executing \"" ++ tmpl.name
    ++ "\" at <" ++ (tmpl.ErrorContext pos ident).2 ++ ">: " ++ e.message

/-- Look a field name up among the fields of a struct. -/
def lookupField (fieldName : String) : List (String × Value) → Option Value
  | [] => none
  | (n, v) :: rest => if n = fieldName then some v else lookupField fieldName rest

/-- Select the field `fieldName` of `receiver`: a pointer is followed first and a nil
pointer is an error; a struct must have the field. -/
def evalField (receiver : Value) (fieldName : String) : Except ExecError Value :=
  match receiver with
  | .pointer typ none => .error (.nilPointer typ fieldName)
  | .pointer typ (some (.struct _ fields)) =>
    match lookupField fieldName fields with
    | some v => .ok v
    | none => .error (.cantEvaluateField fieldName typ)
  | .struct typ fields =>
    match lookupField fieldName fields with
    | some v => .ok v
    | none => .error (.cantEvaluateField fieldName typ)
  | .pointer typ _ => .error (.cantEvaluateField fieldName typ)
  | .string _ => .error (.cantEvaluateField fieldName "string")
  | .int _ => .error (.cantEvaluateField fieldName "int")
  | .slice _ => .error (.cantEvaluateField fieldName "slice")

/-- Evaluate a chain of field names from left to right, starting at `receiver`. -/
def evalFieldChain (receiver : Value) : List String → Except ExecError Value
  | [] => .ok receiver
  | f :: fs =>
    match evalField receiver f with
    | .error e => .error e
    | .ok v => evalFieldChain v fs

/-- The text written for the value of an action: a string is written unchanged and
unescaped, an integer in decimal. Printing of composite values is outside the modelled
fragment. -/
def printValue (v : Value) : Except ExecError String :=
  match v with
  | .string s => .ok s
  | .int i => .ok (fmtInteger i)
  | _ => .error .notPrinted

/-- Walk the nodes in order, appending to the buffer `b`. An error stops the walk with its
message; what was written before it stays in the buffer. -/
def walk (tmpl : Template) (dot : Value) : List Node → String → String × Option String
  | [], b => (b, none)
  | Node.text s :: rest, b => walk tmpl dot rest (b ++ s)
  | Node.field pos ident :: rest, b =>
    match evalFieldChain dot ident with
    | .error e => (b, some (tmpl.errorf pos ident e))
    | .ok v =>
      match printValue v with
      | .error e => (b, some (tmpl.errorf pos ident e))
      | .ok s => walk tmpl dot rest (b ++ s)

/-- Go: `tmpl.Execute(b, data)`; returns the buffer after the call and the error as its
message (`none` is a nil error). -/
def Template.Execute (tmpl : Template) (b : String) (data : Value) : String × Option String :=
  walk tmpl data tmpl.tree b

/-! ## Reflective view of the descriptors -/

def NetworkRanges.toValue (r : NetworkRanges) : Value :=
  .struct "v1alpha1.NetworkRanges" [("CIDRBlocks", .slice (r.CIDRBlocks.map Value.string))]

def ClusterNetworkingConfig.toValue (n : ClusterNetworkingConfig) : Value :=
  .struct "v1alpha1.ClusterNetworkingConfig"
    [("Services", n.Services.toValue), ("Pods", n.Pods.toValue),
     ("ServiceDomain", .string n.ServiceDomain)]

def ClusterSpec.toValue (s : ClusterSpec) : Value :=
  .struct "v1alpha1.ClusterSpec" [("ClusterNetwork", s.ClusterNetwork.toValue)]

def APIEndpoint.toValue (e : APIEndpoint) : Value :=
  .struct "v1alpha1.APIEndpoint" [("Host", .string e.Host), ("Port", .int e.Port)]

def ClusterStatus.toValue (s : ClusterStatus) : Value :=
  .struct "v1alpha1.ClusterStatus" [("APIEndpoints", .slice (s.APIEndpoints.map APIEndpoint.toValue))]

def Cluster.toValue (c : Cluster) : Value :=
  .struct "v1alpha1.Cluster" [("Spec", c.Spec.toValue), ("Status", c.Status.toValue)]

def MachineVersionInfo.toValue (v : MachineVersionInfo) : Value :=
  .struct "v1alpha1.MachineVersionInfo"
    [("Kubelet", .string v.Kubelet), ("ControlPlane", .string v.ControlPlane)]

def MachineSpec.toValue (s : MachineSpec) : Value :=
  .struct "v1alpha1.MachineSpec" [("Versions", s.Versions.toValue)]

def ObjectMeta.toValue (o : ObjectMeta) : Value :=
  .struct "v1.ObjectMeta" [("Name", .string o.Name), ("Namespace", .string o.Namespace)]

def Machine.toValue (m : Machine) : Value :=
  .struct "v1alpha1.Machine" [("ObjectMeta", m.ObjectMeta.toValue), ("Spec", m.Spec.toValue)]

def userdataParams.toValue (p : userdataParams) : Value :=
  .struct "machine.userdataParams"
    [("Machine", .pointer "*v1alpha1.Machine" (p.Machine.map Machine.toValue)),
     ("Cluster", .pointer "*v1alpha1.Cluster" (p.Cluster.map Cluster.toValue)),
     ("Token", .string p.Token),
     ("MasterEndpoint", .string p.MasterEndpoint),
     ("PodCIDR", .string p.PodCIDR),
     ("ServiceCIDR", .string p.ServiceCIDR)]

/-! ## The templates and the builders -/

/-- The environment variables template for master instances. -/
def masterEnvironmentVariables : String :=
"#!/bin/bash
KUBELET_VERSION={{ .Machine.Spec.Versions.Kubelet }}
TOKEN={{ .Token }}
PORT=443
NAMESPACE={{ .Machine.ObjectMeta.Namespace }}
MACHINE=$NAMESPACE
MACHINE+=\"/\"
MACHINE+={{ .Machine.ObjectMeta.Name }}
CONTROL_PLANE_VERSION={{ .Machine.Spec.Versions.ControlPlane }}
CLUSTER_DNS_DOMAIN={{ .Cluster.Spec.ClusterNetwork.ServiceDomain }}
POD_CIDR={{ .PodCIDR }}
SERVICE_CIDR={{ .ServiceCIDR }}
"

/-- The environment variables template for node instances. -/
def nodeEnvironmentVariables : String :=
"#!/bin/bash
KUBELET_VERSION={{ .Machine.Spec.Versions.Kubelet }}
MASTER={{ .MasterEndpoint }}
TOKEN={{ .Token }}
NAMESPACE={{ .Machine.ObjectMeta.Namespace }}
MACHINE=$NAMESPACE
MACHINE+=\"/\"
MACHINE+={{ .Machine.ObjectMeta.Name }}
CLUSTER_DNS_DOMAIN={{ .Cluster.Spec.ClusterNetwork.ServiceDomain }}
POD_CIDR={{ .PodCIDR }}
SERVICE_CIDR={{ .ServiceCIDR }}
"

/-- The result of a builder: the script and the error (`none` is a nil error). -/
abbrev Result := String × Option String

/-- Go: `fmt.Errorf("failed to execute user-data template: %v", err)`. -/
def executeError (err : String) : String :=
  "failed to execute user-data template: " ++ err

/-- Go: the `params` literal of `masterUserdata`, with its fields evaluated in the order in
which they are written. `MasterEndpoint` is not set there and keeps the zero value of a
string, the empty string. -/
def masterParams (cluster : Option Cluster) (machine : Option Machine) (token : String) :
    Go userdataParams := do
  let podCIDR ← subnet (← deref cluster).Spec.ClusterNetwork.Pods
  let serviceCIDR ← subnet (← deref cluster).Spec.ClusterNetwork.Services
  return { Cluster := cluster, Machine := machine, Token := token, MasterEndpoint := "",
           PodCIDR := podCIDR, ServiceCIDR := serviceCIDR }

/-- Go: the `params` literal of `nodeUserdata`, with its fields evaluated in the order in
which they are written. -/
def nodeParams (cluster : Option Cluster) (machine : Option Machine) (token : String) :
    Go userdataParams := do
  let masterEndpoint := endpoint (← index (← deref cluster).Status.APIEndpoints 0)
  let podCIDR ← subnet (← deref cluster).Spec.ClusterNetwork.Pods
  let serviceCIDR ← subnet (← deref cluster).Spec.ClusterNetwork.Services
  return { Cluster := cluster, Machine := machine, Token := token,
           MasterEndpoint := masterEndpoint, PodCIDR := podCIDR, ServiceCIDR := serviceCIDR }

/-- Go: `masterUserdata` builds the master bootstrap script from the environment template
and the metadata. -/
def masterUserdata (cluster : Option Cluster) (machine : Option Machine)
    (token metadata : String) : Go Result := do
  let params ← masterParams cluster machine token
  let tmpl ← Must (Parse "masterEnvironment" masterEnvironmentVariables)
  let b := ""
  match tmpl.Execute b params.toValue with
  | (_, some err) => return ("", some (executeError err))
  | (b, none) =>
    let b := b ++ metadata
    return (b, none)

/-- Go: `nodeUserdata` builds the node bootstrap script from the environment template and
the metadata. -/
def nodeUserdata (cluster : Option Cluster) (machine : Option Machine)
    (token metadata : String) : Go Result := do
  let params ← nodeParams cluster machine token
  let tmpl ← Must (Parse "nodeEnvironment" nodeEnvironmentVariables)
  let b := ""
  match tmpl.Execute b params.toValue with
  | (_, some err) => return ("", some (executeError err))
  | (b, none) =>
    let b := b ++ metadata
    return (b, none)

/-! ## Definitions used by the statements and the proofs -/

/-- The nodes of the master template. -/
def masterTree : List Node :=
  [Node.text "#!/bin/bash\nKUBELET_VERSION=",
   Node.field 39 ["Machine", "Spec", "Versions", "Kubelet"],
   Node.text "\nTOKEN=",
   Node.field 74 ["Token"],
   Node.text "\nPORT=443\nNAMESPACE=",
   Node.field 114 ["Machine", "ObjectMeta", "Namespace"],
   Node.text "\nMACHINE=$NAMESPACE\nMACHINE+=\"/\"\nMACHINE+=",
   Node.field 191 ["Machine", "ObjectMeta", "Name"],
   Node.text "\nCONTROL_PLANE_VERSION=",
   Node.field 244 ["Machine", "Spec", "Versions", "ControlPlane"],
   Node.text "\nCLUSTER_DNS_DOMAIN=",
   Node.field 305 ["Cluster", "Spec", "ClusterNetwork", "ServiceDomain"],
   Node.text "\nPOD_CIDR=",
   Node.field 355 ["PodCIDR"],
   Node.text "\nSERVICE_CIDR=",
   Node.field 383 ["ServiceCIDR"],
   Node.text "\n"]

/-- The nodes of the node template. -/
def nodeTree : List Node :=
  [Node.text "#!/bin/bash\nKUBELET_VERSION=",
   Node.field 39 ["Machine", "Spec", "Versions", "Kubelet"],
   Node.text "\nMASTER=",
   Node.field 75 ["MasterEndpoint"],
   Node.text "\nTOKEN=",
   Node.field 103 ["Token"],
   Node.text "\nNAMESPACE=",
   Node.field 134 ["Machine", "ObjectMeta", "Namespace"],
   Node.text "\nMACHINE=$NAMESPACE\nMACHINE+=\"/\"\nMACHINE+=",
   Node.field 211 ["Machine", "ObjectMeta", "Name"],
   Node.text "\nCLUSTER_DNS_DOMAIN=",
   Node.field 261 ["Cluster", "Spec", "ClusterNetwork", "ServiceDomain"],
   Node.text "\nPOD_CIDR=",
   Node.field 311 ["PodCIDR"],
   Node.text "\nSERVICE_CIDR=",
   Node.field 339 ["ServiceCIDR"],
   Node.text "\n"]

/-- The first block of a range, the empty string when there is none. -/
def firstBlock (netRange : NetworkRanges) : String :=
  netRange.CIDRBlocks.headD ""

/-- The text of the master script before the metadata. -/
def masterScript (c : Cluster) (m : Machine) (token : String) : String :=
  "#!/bin/bash\n" ++
  "KUBELET_VERSION=" ++ m.Spec.Versions.Kubelet ++ "\n" ++
  "TOKEN=" ++ token ++ "\n" ++
  "PORT=443\n" ++
  "NAMESPACE=" ++ m.ObjectMeta.Namespace ++ "\n" ++
  "MACHINE=$NAMESPACE\n" ++
  "MACHINE+=\"/\"\n" ++
  "MACHINE+=" ++ m.ObjectMeta.Name ++ "\n" ++
  "CONTROL_PLANE_VERSION=" ++ m.Spec.Versions.ControlPlane ++ "\n" ++
  "CLUSTER_DNS_DOMAIN=" ++ c.Spec.ClusterNetwork.ServiceDomain ++ "\n" ++
  "POD_CIDR=" ++ firstBlock c.Spec.ClusterNetwork.Pods ++ "\n" ++
  "SERVICE_CIDR=" ++ firstBlock c.Spec.ClusterNetwork.Services ++ "\n"

/-- The text of the node script before the metadata. -/
def nodeScript (c : Cluster) (m : Machine) (token masterEndpoint : String) : String :=
  "#!/bin/bash\n" ++
  "KUBELET_VERSION=" ++ m.Spec.Versions.Kubelet ++ "\n" ++
  "MASTER=" ++ masterEndpoint ++ "\n" ++
  "TOKEN=" ++ token ++ "\n" ++
  "NAMESPACE=" ++ m.ObjectMeta.Namespace ++ "\n" ++
  "MACHINE=$NAMESPACE\n" ++
  "MACHINE+=\"/\"\n" ++
  "MACHINE+=" ++ m.ObjectMeta.Name ++ "\n" ++
  "CLUSTER_DNS_DOMAIN=" ++ c.Spec.ClusterNetwork.ServiceDomain ++ "\n" ++
  "POD_CIDR=" ++ firstBlock c.Spec.ClusterNetwork.Pods ++ "\n" ++
  "SERVICE_CIDR=" ++ firstBlock c.Spec.ClusterNetwork.Services ++ "\n"

/-- The message of the error that a builder returns for a nil machine: both templates fail
at the field chain of the kubelet version, whose node stands in line 2 at column 27. -/
def nilMachineError (name : String) : String :=
  executeError ("template: " ++ name ++ ":2:27: executing \"" ++ name
    ++ "\" at <.Machine.Spec.Versions.Kubelet>: nil pointer evaluating *v1alpha1.Machine.Spec")

/-- The decimal digits of a natural number, most significant first; zero has the single
digit `0`. -/
def decimalDigits (n : Nat) : List Nat :=
  if n = 0 then [0] else (Nat.digits 10 n).reverse

/-- The lines of a script: the pieces between newline characters. A script that ends in a
newline has an empty last piece. -/
def scriptLines (s : String) : List (List Char) :=
  splitAt '\n' s.data

/-- Some line of `s` begins with `pre`. -/
def hasLineWithPrefix (pre s : String) : Bool :=
  (scriptLines s).any (fun l => pre.data.isPrefixOf l)

/-- Some line of `f` after its first newline begins with `pre`. -/
def continuationHasPrefix (pre f : String) : Bool :=
  (scriptLines f).tail.any (fun l => pre.data.isPrefixOf l)

/-- The text `line` stands in `s` at the start of a line and is ended by a newline. -/
def occursAsLine (s line : String) : Prop :=
  ∃ pre post, s = pre ++ line ++ "\n" ++ post ∧ (pre = "" ∨ ∃ q, pre = q ++ "\n")

/-- Two character lists differ at a position that both have. -/
def diverge : List Char → List Char → Bool
  | a :: as, b :: bs => a != b || diverge as bs
  | _, _ => false

/-- Lines ended by a newline each, followed by `tail`. -/
def joinLines (ls : List String) (tail : String) : String :=
  ls.foldr (fun l acc => l ++ "\n" ++ acc) tail

/-- The lines of the master script, in order. -/
def masterLines (c : Cluster) (m : Machine) (token : String) : List String :=
  ["#!/bin/bash",
   "KUBELET_VERSION=" ++ m.Spec.Versions.Kubelet,
   "TOKEN=" ++ token,
   "PORT=443",
   "NAMESPACE=" ++ m.ObjectMeta.Namespace,
   "MACHINE=$NAMESPACE",
   "MACHINE+=\"/\"",
   "MACHINE+=" ++ m.ObjectMeta.Name,
   "CONTROL_PLANE_VERSION=" ++ m.Spec.Versions.ControlPlane,
   "CLUSTER_DNS_DOMAIN=" ++ c.Spec.ClusterNetwork.ServiceDomain,
   "POD_CIDR=" ++ firstBlock c.Spec.ClusterNetwork.Pods,
   "SERVICE_CIDR=" ++ firstBlock c.Spec.ClusterNetwork.Services]

/-- The lines of the node script, in order. -/
def nodeLines (c : Cluster) (m : Machine) (token masterEndpoint : String) : List String :=
  ["#!/bin/bash",
   "KUBELET_VERSION=" ++ m.Spec.Versions.Kubelet,
   "MASTER=" ++ masterEndpoint,
   "TOKEN=" ++ token,
   "NAMESPACE=" ++ m.ObjectMeta.Namespace,
   "MACHINE=$NAMESPACE",
   "MACHINE+=\"/\"",
   "MACHINE+=" ++ m.ObjectMeta.Name,
   "CLUSTER_DNS_DOMAIN=" ++ c.Spec.ClusterNetwork.ServiceDomain,
   "POD_CIDR=" ++ firstBlock c.Spec.ClusterNetwork.Pods,
   "SERVICE_CIDR=" ++ firstBlock c.Spec.ClusterNetwork.Services]

/-- A cluster with two blocks in each range and two API endpoints. -/
def exampleCluster : Cluster :=
  { Spec := { ClusterNetwork :=
      { Services := { CIDRBlocks := ["10.96.0.0/12", "10.112.0.0/12"] },
        Pods := { CIDRBlocks := ["10.0.0.0/16", "10.1.0.0/16"] },
        ServiceDomain := "cluster.local" } },
    Status := { APIEndpoints := [{ Host := "1.2.3.4", Port := 6443 },
                                 { Host := "5.6.7.8", Port := 443 }] } }

/-- The same cluster with other blocks after the first of each range. -/
def exampleClusterOtherBlocks : Cluster :=
  { Spec := { ClusterNetwork :=
      { Services := { CIDRBlocks := ["10.96.0.0/12"] },
        Pods := { CIDRBlocks := ["10.0.0.0/16", "172.16.0.0/16", "172.17.0.0/16"] },
        ServiceDomain := "cluster.local" } },
    Status := { APIEndpoints := [{ Host := "1.2.3.4", Port := 6443 },
                                 { Host := "5.6.7.8", Port := 443 }] } }

/-- A cluster without CIDR blocks and without API endpoints. -/
def exampleEmptyCluster : Cluster :=
  { Spec := { ClusterNetwork :=
      { Services := { CIDRBlocks := [] }, Pods := { CIDRBlocks := [] },
        ServiceDomain := "cluster.local" } },
    Status := { APIEndpoints := [] } }

/-- A machine. -/
def exampleMachine : Machine :=
  { ObjectMeta := { Name := "node-1", Namespace := "default" },
    Spec := { Versions := { Kubelet := "1.9.4", ControlPlane := "1.9.4" } } }

/-- The example cluster without API endpoints. -/
def exampleClusterNoEndpoints : Cluster :=
  { Spec := exampleCluster.Spec, Status := { APIEndpoints := [] } }

/-- The list `M` is the list `L` without one occurrence of the line `x`. -/
def removedOne (x : List Char) (L M : List (List Char)) : Prop :=
  ∃ a b, L = a ++ x :: b ∧ M = a ++ b

/-- The fixed prefixes of a template: of every line that is ended by a newline, the text in
front of the first action. -/
def fixedPrefixes (template : String) : List (List Char) :=
  (splitAt '\n' template.data).dropLast.map (fun l => l.takeWhile (fun ch => ch != '{'))

/-- The master script of the example cluster and machine, for the token
`abcdef.0123456789abcdef` and no metadata. -/
def exampleMasterScript : String :=
  "#!/bin/bash\nKUBELET_VERSION=1.9.4\nTOKEN=abcdef.0123456789abcdef\nPORT=443\nNAMESPACE=default\nMACHINE=$NAMESPACE\nMACHINE+=\"/\"\nMACHINE+=node-1\nCONTROL_PLANE_VERSION=1.9.4\nCLUSTER_DNS_DOMAIN=cluster.local\nPOD_CIDR=10.0.0.0/16\nSERVICE_CIDR=10.96.0.0/12\n"

/-- The node script of the example cluster and machine, for the token
`abcdef.0123456789abcdef` and no metadata. -/
def exampleNodeScript : String :=
  "#!/bin/bash\nKUBELET_VERSION=1.9.4\nMASTER=1.2.3.4:6443\nTOKEN=abcdef.0123456789abcdef\nNAMESPACE=default\nMACHINE=$NAMESPACE\nMACHINE+=\"/\"\nMACHINE+=node-1\nCLUSTER_DNS_DOMAIN=cluster.local\nPOD_CIDR=10.0.0.0/16\nSERVICE_CIDR=10.96.0.0/12\n"

/-! ## Lemmas -/

set_option maxRecDepth 100000 in
theorem Parse_masterEnvironment :
    Parse "masterEnvironment" masterEnvironmentVariables
      = .ok { name := "masterEnvironment", text := masterEnvironmentVariables,
              tree := masterTree } := by
  rfl

set_option maxRecDepth 100000 in
theorem Parse_nodeEnvironment :
    Parse "nodeEnvironment" nodeEnvironmentVariables
      = .ok { name := "nodeEnvironment", text := nodeEnvironmentVariables,
              tree := nodeTree } := by
  rfl

@[simp]
theorem Go.ret_bind {α β : Type} (a : α) (f : α → Go β) :
    (Go.ret a >>= f) = f a := rfl

@[simp]
theorem Go.panic_bind {α β : Type} (p : Panic) (f : α → Go β) :
    (Go.panic p >>= f) = Go.panic p := rfl

@[simp]
theorem Go.pure_eq {α : Type} (a : α) : (pure a : Go α) = Go.ret a := rfl

theorem subnet_eq (netRange : NetworkRanges) : subnet netRange = .ret (firstBlock netRange) := by
  obtain ⟨blocks⟩ := netRange
  cases blocks <;> simp [subnet, index, firstBlock]

theorem masterUserdata_some (c : Cluster) (m : Machine) (token metadata : String) :
    masterUserdata (some c) (some m) token metadata
      = .ret (masterScript c m token ++ metadata, none) := by
  simp [masterUserdata, masterParams, deref, subnet_eq, Parse_masterEnvironment, Must, Template.Execute,
    masterTree, walk, evalFieldChain, evalField, lookupField, printValue,
    userdataParams.toValue, Machine.toValue, MachineSpec.toValue, MachineVersionInfo.toValue,
    ObjectMeta.toValue, Cluster.toValue, ClusterSpec.toValue, ClusterNetworkingConfig.toValue,
    masterScript, String.append_assoc]

theorem nodeUserdata_some (c : Cluster) (m : Machine) (token metadata : String)
    (e : APIEndpoint) (rest : List APIEndpoint) (h : c.Status.APIEndpoints = e :: rest) :
    nodeUserdata (some c) (some m) token metadata
      = .ret (nodeScript c m token (endpoint e) ++ metadata, none) := by
  simp [nodeUserdata, nodeParams, deref, index, h, subnet_eq, Parse_nodeEnvironment, Must,
    Template.Execute, nodeTree, walk, evalFieldChain, evalField, lookupField, printValue,
    userdataParams.toValue, Machine.toValue, MachineSpec.toValue, MachineVersionInfo.toValue,
    ObjectMeta.toValue, Cluster.toValue, ClusterSpec.toValue, ClusterNetworkingConfig.toValue,
    nodeScript, String.append_assoc]

set_option maxRecDepth 100000 in
theorem errorf_master_kubelet (tree : List Node) :
    Template.errorf
        { name := "masterEnvironment", text := masterEnvironmentVariables, tree := tree }
        39 ["Machine", "Spec", "Versions", "Kubelet"]
        (ExecError.nilPointer "*v1alpha1.Machine" "Spec")
      = "template: masterEnvironment:2:27: executing \"masterEnvironment\" at <.Machine.Spec.Versions.Kubelet>: nil pointer evaluating *v1alpha1.Machine.Spec" := by
  have h : Template.errorf
        { name := "masterEnvironment", text := masterEnvironmentVariables, tree := [] }
        39 ["Machine", "Spec", "Versions", "Kubelet"]
        (ExecError.nilPointer "*v1alpha1.Machine" "Spec")
      = "template: masterEnvironment:2:27: executing \"masterEnvironment\" at <.Machine.Spec.Versions.Kubelet>: nil pointer evaluating *v1alpha1.Machine.Spec" := by
    decide
  exact h

set_option maxRecDepth 100000 in
theorem errorf_node_kubelet (tree : List Node) :
    Template.errorf
        { name := "nodeEnvironment", text := nodeEnvironmentVariables, tree := tree }
        39 ["Machine", "Spec", "Versions", "Kubelet"]
        (ExecError.nilPointer "*v1alpha1.Machine" "Spec")
      = "template: nodeEnvironment:2:27: executing \"nodeEnvironment\" at <.Machine.Spec.Versions.Kubelet>: nil pointer evaluating *v1alpha1.Machine.Spec" := by
  have h : Template.errorf
        { name := "nodeEnvironment", text := nodeEnvironmentVariables, tree := [] }
        39 ["Machine", "Spec", "Versions", "Kubelet"]
        (ExecError.nilPointer "*v1alpha1.Machine" "Spec")
      = "template: nodeEnvironment:2:27: executing \"nodeEnvironment\" at <.Machine.Spec.Versions.Kubelet>: nil pointer evaluating *v1alpha1.Machine.Spec" := by
    decide
  exact h

theorem masterUserdata_nil_machine (c : Cluster) (token metadata : String) :
    masterUserdata (some c) none token metadata
      = .ret ("", some (nilMachineError "masterEnvironment")) := by
  simp [masterUserdata, masterParams, deref, subnet_eq, Parse_masterEnvironment, Must, Template.Execute,
    masterTree, walk, evalFieldChain, evalField, lookupField, printValue,
    userdataParams.toValue, nilMachineError, errorf_master_kubelet, errorf_node_kubelet]

theorem nodeUserdata_nil_machine (c : Cluster) (token metadata : String)
    (e : APIEndpoint) (rest : List APIEndpoint) (h : c.Status.APIEndpoints = e :: rest) :
    nodeUserdata (some c) none token metadata
      = .ret ("", some (nilMachineError "nodeEnvironment")) := by
  simp [nodeUserdata, nodeParams, deref, index, h, subnet_eq, Parse_nodeEnvironment, Must,
    Template.Execute, nodeTree, walk, evalFieldChain, evalField, lookupField, printValue,
    userdataParams.toValue, nilMachineError, errorf_master_kubelet, errorf_node_kubelet]

theorem masterUserdata_nil_cluster (machine : Option Machine) (token metadata : String) :
    masterUserdata none machine token metadata = .panic .nilDereference := by
  simp [masterUserdata, masterParams, deref]

theorem nodeUserdata_nil_cluster (machine : Option Machine) (token metadata : String) :
    nodeUserdata none machine token metadata = .panic .nilDereference := by
  simp [nodeUserdata, nodeParams, deref]

theorem nodeUserdata_no_endpoint (c : Cluster) (machine : Option Machine)
    (token metadata : String) (h : c.Status.APIEndpoints = []) :
    nodeUserdata (some c) machine token metadata = .panic (.indexOutOfRange 0 0) := by
  simp [nodeUserdata, nodeParams, deref, index, h]

theorem fmtDigits_eq (fuel : Nat) : ∀ (u : Nat) (acc : List Char), 0 < u → u ≤ fuel →
    fmtDigits fuel u acc = (Nat.digits 10 u).reverse.map digitChar ++ acc := by
  induction fuel with
  | zero => intro u acc hu hf; omega
  | succ fuel ih =>
    intro u acc hu hf
    unfold fmtDigits
    by_cases h10 : u ≥ 10
    · have hq : 0 < u / 10 := Nat.div_pos h10 (by decide)
      have hle : u / 10 ≤ fuel := by omega
      rw [if_pos h10, ih (u / 10) _ hq hle, Nat.digits_def' (by decide : 1 < 10) hu]
      simp
    · rw [if_neg h10, Nat.digits_of_lt 10 u (by omega) (by omega)]
      simp

theorem fmtDigits_natAbs (n : Nat) : fmtDigits n n [] = (decimalDigits n).map digitChar := by
  by_cases h : n = 0
  · subst h; simp [fmtDigits, decimalDigits]
  · rw [fmtDigits_eq n n [] (by omega) (le_refl n)]
    simp [decimalDigits, h]

theorem fmtInteger_eq (v : Int) :
    fmtInteger v = (if v < 0 then "-" else "") ++ String.mk ((decimalDigits v.natAbs).map digitChar) := by
  unfold fmtInteger
  rw [fmtDigits_natAbs]
  by_cases h : v < 0
  · simp only [if_pos h]; rfl
  · simp only [if_neg h]; rfl

theorem decimalDigits_ne_nil (n : Nat) : decimalDigits n ≠ [] := by
  unfold decimalDigits
  by_cases h : n = 0
  · simp [h]
  · simp only [if_neg h, ne_eq, List.reverse_eq_nil_iff]
    exact Nat.digits_ne_nil_iff_ne_zero.mpr h

theorem decimalDigits_lt (n : Nat) : ∀ d ∈ decimalDigits n, d < 10 := by
  intro d hd
  unfold decimalDigits at hd
  by_cases h : n = 0
  · simp [h] at hd; omega
  · simp only [if_neg h, List.mem_reverse] at hd
    exact Nat.digits_lt_base (by decide) hd

theorem decimalDigits_head (n : Nat) (h0 : (decimalDigits n).head? = some 0) :
    decimalDigits n = [0] := by
  unfold decimalDigits at h0 ⊢
  by_cases h : n = 0
  · simp [h]
  · exfalso
    simp only [if_neg h, List.head?_reverse] at h0
    have hne : Nat.digits 10 n ≠ [] := Nat.digits_ne_nil_iff_ne_zero.mpr h
    have hlast := Nat.getLast_digit_ne_zero 10 h
    rw [List.getLast?_eq_getLast _ hne] at h0
    exact hlast (Option.some.inj h0)

theorem decimalDigits_value (n : Nat) : Nat.ofDigits 10 (decimalDigits n).reverse = n := by
  unfold decimalDigits
  by_cases h : n = 0
  · subst h; simp
  · simp only [if_neg h, List.reverse_reverse]
    exact Nat.ofDigits_digits 10 n

theorem splitAt_ne_nil (sep : Char) (a : List Char) : splitAt sep a ≠ [] := by
  induction a with
  | nil => simp [splitAt]
  | cons c a ih =>
    unfold splitAt
    by_cases h : c = sep
    · simp [h]
    · simp only [if_neg h]
      cases hs : splitAt sep a with
      | nil => simp
      | cons l ls => simp

theorem splitAt_append_sep (sep : Char) (a b : List Char) :
    splitAt sep (a ++ sep :: b) = splitAt sep a ++ splitAt sep b := by
  induction a with
  | nil => simp [splitAt]
  | cons c a ih =>
    by_cases h : c = sep
    · simp [splitAt, h, ih]
    · simp only [List.cons_append, splitAt, if_neg h]
      rw [show a.append (sep :: b) = a ++ sep :: b from rfl, ih]
      cases hs : splitAt sep a with
      | nil => exact absurd hs (splitAt_ne_nil sep a)
      | cons l ls => simp

theorem splitAt_append_of_not_mem (sep : Char) (p f : List Char) (hp : sep ∉ p) :
    splitAt sep (p ++ f) = (p ++ (splitAt sep f).headD []) :: (splitAt sep f).tail := by
  induction p with
  | nil =>
    cases hs : splitAt sep f with
    | nil => exact absurd hs (splitAt_ne_nil sep f)
    | cons l ls => simp [hs]
  | cons c p ih =>
    have hc : c ≠ sep := fun h => hp (by simp [h])
    have hp2 : sep ∉ p := fun h => hp (by simp [h])
    simp [splitAt, if_neg hc, ih hp2]

theorem splitAt_of_not_mem (sep : Char) (p : List Char) (hp : sep ∉ p) :
    splitAt sep p = [p] := by
  have := splitAt_append_of_not_mem sep p [] hp
  simpa [splitAt] using this

theorem isPrefixOf_append_of_diverge : ∀ (P p h : List Char), diverge P p = true →
    P.isPrefixOf (p ++ h) = false
  | [], _, _, hd => by simp [diverge] at hd
  | _ :: _, [], _, hd => by simp [diverge] at hd
  | a :: as, b :: bs, h, hd => by
    simp only [diverge, Bool.or_eq_true, bne_iff_ne, ne_eq] at hd
    simp only [List.cons_append, List.isPrefixOf, Bool.and_eq_false_imp, beq_iff_eq]
    intro hab
    rcases hd with hd | hd
    · exact absurd hab hd
    · exact isPrefixOf_append_of_diverge as bs h hd

theorem isPrefixOf_append_self (P h : List Char) : P.isPrefixOf (P ++ h) = true := by
  induction P with
  | nil => simp
  | cons a as ih => simp [List.isPrefixOf, ih]

theorem scriptLines_append_newline (a b : String) :
    scriptLines (a ++ "\n" ++ b) = scriptLines a ++ scriptLines b := by
  simp only [scriptLines, String.data_append]
  rw [List.append_assoc]
  exact splitAt_append_sep '\n' a.data b.data

theorem scriptLines_joinLines (ls : List String) (tail : String) :
    scriptLines (joinLines ls tail) = (ls.map scriptLines).flatten ++ scriptLines tail := by
  induction ls with
  | nil => simp [joinLines]
  | cons l ls ih =>
    have : joinLines (l :: ls) tail = l ++ "\n" ++ joinLines ls tail := rfl
    rw [this, scriptLines_append_newline, ih]
    simp

theorem scriptLines_prefixed (p f : String) (hp : '\n' ∉ p.data) :
    scriptLines (p ++ f) = (p.data ++ (scriptLines f).headD []) :: (scriptLines f).tail := by
  simp only [scriptLines, String.data_append]
  exact splitAt_append_of_not_mem '\n' p.data f.data hp

theorem hasLineWithPrefix_joinLines (P : String) (ls : List String) (tail : String) :
    hasLineWithPrefix P (joinLines ls tail)
      = (ls.any (hasLineWithPrefix P) || hasLineWithPrefix P tail) := by
  unfold hasLineWithPrefix
  rw [scriptLines_joinLines, List.any_append]
  congr 1
  induction ls with
  | nil => simp
  | cons l ls ih => simp [List.any_append, ih]

theorem hasLineWithPrefix_prefixed (P p f : String) (hp : '\n' ∉ p.data) :
    hasLineWithPrefix P (p ++ f)
      = (P.data.isPrefixOf (p.data ++ (scriptLines f).headD []) || continuationHasPrefix P f) := by
  unfold hasLineWithPrefix continuationHasPrefix
  rw [scriptLines_prefixed p f hp]
  simp

theorem hasLineWithPrefix_diverge (P p f : String) (hp : '\n' ∉ p.data)
    (hd : diverge P.data p.data = true) :
    hasLineWithPrefix P (p ++ f) = continuationHasPrefix P f := by
  rw [hasLineWithPrefix_prefixed P p f hp, isPrefixOf_append_of_diverge _ _ _ hd]
  simp

theorem hasLineWithPrefix_self (P f : String) (hp : '\n' ∉ P.data) :
    hasLineWithPrefix P (P ++ f) = true := by
  rw [hasLineWithPrefix_prefixed P P f hp, isPrefixOf_append_self]
  simp

set_option maxRecDepth 4000 in
theorem masterScript_eq_joinLines (c : Cluster) (m : Machine) (token metadata : String) :
    masterScript c m token ++ metadata = joinLines (masterLines c m token) metadata := by
  apply String.ext
  simp [masterScript, masterLines, joinLines, String.data_append]

set_option maxRecDepth 4000 in
theorem nodeScript_eq_joinLines (c : Cluster) (m : Machine) (token ep metadata : String) :
    nodeScript c m token ep ++ metadata = joinLines (nodeLines c m token ep) metadata := by
  apply String.ext
  simp [nodeScript, nodeLines, joinLines, String.data_append]

theorem nodeScript_controlPlaneLine (c : Cluster) (m : Machine) (token ep metadata : String) :
    hasLineWithPrefix "CONTROL_PLANE_VERSION=" (nodeScript c m token ep ++ metadata)
      = (continuationHasPrefix "CONTROL_PLANE_VERSION=" m.Spec.Versions.Kubelet
        || continuationHasPrefix "CONTROL_PLANE_VERSION=" ep
        || continuationHasPrefix "CONTROL_PLANE_VERSION=" token
        || continuationHasPrefix "CONTROL_PLANE_VERSION=" m.ObjectMeta.Namespace
        || continuationHasPrefix "CONTROL_PLANE_VERSION=" m.ObjectMeta.Name
        || continuationHasPrefix "CONTROL_PLANE_VERSION=" c.Spec.ClusterNetwork.ServiceDomain
        || continuationHasPrefix "CONTROL_PLANE_VERSION=" (firstBlock c.Spec.ClusterNetwork.Pods)
        || continuationHasPrefix "CONTROL_PLANE_VERSION="
            (firstBlock c.Spec.ClusterNetwork.Services)
        || hasLineWithPrefix "CONTROL_PLANE_VERSION=" metadata) := by
  rw [nodeScript_eq_joinLines, hasLineWithPrefix_joinLines]
  simp only [nodeLines, List.any_cons, List.any_nil, Bool.or_false]
  rw [hasLineWithPrefix_diverge _ "KUBELET_VERSION=" _ (by decide) (by decide),
    hasLineWithPrefix_diverge _ "MASTER=" _ (by decide) (by decide),
    hasLineWithPrefix_diverge _ "TOKEN=" _ (by decide) (by decide),
    hasLineWithPrefix_diverge _ "NAMESPACE=" _ (by decide) (by decide),
    hasLineWithPrefix_diverge _ "MACHINE+=" _ (by decide) (by decide),
    hasLineWithPrefix_diverge _ "CLUSTER_DNS_DOMAIN=" _ (by decide) (by decide),
    hasLineWithPrefix_diverge _ "POD_CIDR=" _ (by decide) (by decide),
    hasLineWithPrefix_diverge _ "SERVICE_CIDR=" _ (by decide) (by decide)]
  have h1 : hasLineWithPrefix "CONTROL_PLANE_VERSION=" "#!/bin/bash" = false := by decide
  have h2 : hasLineWithPrefix "CONTROL_PLANE_VERSION=" "MACHINE=$NAMESPACE" = false := by decide
  have h3 : hasLineWithPrefix "CONTROL_PLANE_VERSION=" "MACHINE+=\"/\"" = false := by decide
  rw [h1, h2, h3]
  simp [Bool.or_assoc]

theorem occursAsLine_joinLines (ls : List String) (tail l : String) (h : l ∈ ls) :
    occursAsLine (joinLines ls tail) l := by
  induction ls with
  | nil => simp at h
  | cons l0 ls ih =>
    have hj : joinLines (l0 :: ls) tail = l0 ++ "\n" ++ joinLines ls tail := rfl
    rcases List.mem_cons.mp h with h | h
    · subst h
      exact ⟨"", joinLines ls tail, by rw [hj]; simp, Or.inl rfl⟩
    · obtain ⟨pre, post, heq, hpre⟩ := ih h
      refine ⟨l0 ++ "\n" ++ pre, post, ?_, ?_⟩
      · rw [hj, heq]; simp [String.append_assoc]
      · rcases hpre with hpre | ⟨q, hq⟩
        · exact Or.inr ⟨l0, by simp [hpre]⟩
        · exact Or.inr ⟨l0 ++ "\n" ++ q, by simp [hq, String.append_assoc]⟩

theorem mem_scriptLines_of_occursAsLine (s l : String) (h : occursAsLine s l)
    (hl : '\n' ∉ l.data) : l.data ∈ scriptLines s := by
  obtain ⟨pre, post, heq, hpre⟩ := h
  have hline : scriptLines l = [l.data] := splitAt_of_not_mem '\n' l.data hl
  rw [heq, scriptLines_append_newline]
  rcases hpre with hpre | ⟨q, hq⟩
  · subst hpre
    simp [hline]
  · subst hq
    rw [scriptLines_append_newline, hline]
    simp

theorem executeError_starts (err : String) :
    "failed to execute user-data template".data <+: (executeError err).data :=
  ⟨": ".data ++ err.data, by simp [executeError, String.data_append]⟩

theorem firstBlock_congr (r r' : NetworkRanges)
    (h : r.CIDRBlocks.head? = r'.CIDRBlocks.head?) : firstBlock r = firstBlock r' := by
  obtain ⟨bs⟩ := r
  obtain ⟨bs'⟩ := r'
  cases bs <;> cases bs' <;> simp_all [firstBlock]

set_option maxRecDepth 4000 in
theorem masterScript_ends (c : Cluster) (m : Machine) (token : String) :
    ∃ pre, masterScript c m token
      = pre ++ "\nSERVICE_CIDR=" ++ firstBlock c.Spec.ClusterNetwork.Services ++ "\n" :=
  ⟨"#!/bin/bash\n" ++
    "KUBELET_VERSION=" ++ m.Spec.Versions.Kubelet ++ "\n" ++
    "TOKEN=" ++ token ++ "\n" ++
    "PORT=443\n" ++
    "NAMESPACE=" ++ m.ObjectMeta.Namespace ++ "\n" ++
    "MACHINE=$NAMESPACE\n" ++
    "MACHINE+=\"/\"\n" ++
    "MACHINE+=" ++ m.ObjectMeta.Name ++ "\n" ++
    "CONTROL_PLANE_VERSION=" ++ m.Spec.Versions.ControlPlane ++ "\n" ++
    "CLUSTER_DNS_DOMAIN=" ++ c.Spec.ClusterNetwork.ServiceDomain ++ "\n" ++
    "POD_CIDR=" ++ firstBlock c.Spec.ClusterNetwork.Pods, by
    apply String.ext
    simp [masterScript, String.data_append]⟩

set_option maxRecDepth 4000 in
theorem nodeScript_ends (c : Cluster) (m : Machine) (token ep : String) :
    ∃ pre, nodeScript c m token ep
      = pre ++ "\nSERVICE_CIDR=" ++ firstBlock c.Spec.ClusterNetwork.Services ++ "\n" :=
  ⟨"#!/bin/bash\n" ++
    "KUBELET_VERSION=" ++ m.Spec.Versions.Kubelet ++ "\n" ++
    "MASTER=" ++ ep ++ "\n" ++
    "TOKEN=" ++ token ++ "\n" ++
    "NAMESPACE=" ++ m.ObjectMeta.Namespace ++ "\n" ++
    "MACHINE=$NAMESPACE\n" ++
    "MACHINE+=\"/\"\n" ++
    "MACHINE+=" ++ m.ObjectMeta.Name ++ "\n" ++
    "CLUSTER_DNS_DOMAIN=" ++ c.Spec.ClusterNetwork.ServiceDomain ++ "\n" ++
    "POD_CIDR=" ++ firstBlock c.Spec.ClusterNetwork.Pods, by
    apply String.ext
    simp [nodeScript, String.data_append]⟩

theorem cidr_line_cases (s key : String) (hk : '\n' ∉ key.data) (r : NetworkRanges)
    (h : occursAsLine s (key ++ firstBlock r)) :
    match r.CIDRBlocks with
    | [] => occursAsLine s key ∧ key.data ∈ scriptLines s
    | block :: _ =>
      occursAsLine s (key ++ block) ∧ ('\n' ∉ block.data → (key ++ block).data ∈ scriptLines s) := by
  obtain ⟨blocks⟩ := r
  cases blocks with
  | nil =>
    have h' : occursAsLine s key := by simpa [firstBlock] using h
    exact ⟨h', mem_scriptLines_of_occursAsLine s key h' hk⟩
  | cons block rest =>
    have h' : occursAsLine s (key ++ block) := by simpa [firstBlock] using h
    refine ⟨h', fun hb => mem_scriptLines_of_occursAsLine s _ h' ?_⟩
    simp only [String.data_append, List.mem_append, not_or]
    exact ⟨hk, hb⟩

theorem masterUserdata_ne_nodeUserdata : masterUserdata ≠ nodeUserdata := by
  intro h
  have h' := congrFun (congrFun (congrFun (congrFun h (some exampleEmptyCluster)) none) "") ""
  rw [masterUserdata_nil_machine, nodeUserdata_no_endpoint _ _ _ _ rfl] at h'
  cases h'

theorem digitChar_ne_newline (d : Nat) (h : d < 10) : digitChar d ≠ '\n' := by
  interval_cases d <;> decide

theorem fmtInteger_no_newline (v : Int) : '\n' ∉ (fmtInteger v).data := by
  rw [fmtInteger_eq]
  simp only [String.data_append, List.mem_append, List.mem_map, not_or, not_exists, not_and]
  constructor
  · by_cases h : v < 0
    · simp only [if_pos h]; decide
    · simp only [if_neg h]; decide
  · intro d hd heq
    exact digitChar_ne_newline d (decimalDigits_lt _ d hd) heq

theorem endpoint_no_newline (e : APIEndpoint) (h : '\n' ∉ e.Host.data) :
    '\n' ∉ (endpoint e).data := by
  simp only [endpoint, String.data_append, List.mem_append, not_or]
  exact ⟨⟨h, by decide⟩, fmtInteger_no_newline _⟩

theorem firstBlock_no_newline (r : NetworkRanges)
    (h : ∀ p, r.CIDRBlocks.head? = some p → '\n' ∉ p.data) : '\n' ∉ (firstBlock r).data := by
  obtain ⟨blocks⟩ := r
  cases blocks with
  | nil => simp [firstBlock]
  | cons b rest => exact h b rfl

theorem scriptLines_of_no_newline (l : String) (h : '\n' ∉ l.data) :
    scriptLines l = [l.data] :=
  splitAt_of_not_mem '\n' l.data h

theorem scriptLines_joinLines_of_no_newline (ls : List String)
    (h : ∀ l ∈ ls, '\n' ∉ l.data) :
    scriptLines (joinLines ls "") = ls.map String.data ++ [[]] := by
  rw [scriptLines_joinLines]
  congr 1
  induction ls with
  | nil => rfl
  | cons l ls ih =>
    simp only [List.map_cons, List.flatten_cons]
    rw [scriptLines_of_no_newline l (h l (by simp)), ih (fun x hx => h x (by simp [hx]))]
    rfl

theorem fixedPrefixes_master :
    fixedPrefixes masterEnvironmentVariables
      = ["#!/bin/bash".data, "KUBELET_VERSION=".data, "TOKEN=".data, "PORT=443".data,
         "NAMESPACE=".data, "MACHINE=$NAMESPACE".data, "MACHINE+=\"/\"".data,
         "MACHINE+=".data, "CONTROL_PLANE_VERSION=".data, "CLUSTER_DNS_DOMAIN=".data,
         "POD_CIDR=".data, "SERVICE_CIDR=".data] := by
  decide

theorem fixedPrefixes_node :
    fixedPrefixes nodeEnvironmentVariables
      = ["#!/bin/bash".data, "KUBELET_VERSION=".data, "MASTER=".data, "TOKEN=".data,
         "NAMESPACE=".data, "MACHINE=$NAMESPACE".data, "MACHINE+=\"/\"".data,
         "MACHINE+=".data, "CLUSTER_DNS_DOMAIN=".data, "POD_CIDR=".data,
         "SERVICE_CIDR=".data] := by
  decide

/-! ## The claims -/

/-- C1: for a cluster and a machine that are not nil, and any token and metadata,
`masterUserdata` returns a nil error and the script is exactly the twelve lines of the
master template, each ended by a newline, with the kubelet version, the token, the
namespace, the machine name, the control-plane version, the service domain and the two
subnets inserted unchanged and in this order, followed by the metadata. -/
theorem masterUserdata_script (c : Cluster) (m : Machine) (token metadata : String) :
    ∃ podCIDR serviceCIDR,
      subnet c.Spec.ClusterNetwork.Pods = .ret podCIDR ∧
      subnet c.Spec.ClusterNetwork.Services = .ret serviceCIDR ∧
      masterUserdata (some c) (some m) token metadata = .ret
        ("#!/bin/bash\n" ++
         "KUBELET_VERSION=" ++ m.Spec.Versions.Kubelet ++ "\n" ++
         "TOKEN=" ++ token ++ "\n" ++
         "PORT=443\n" ++
         "NAMESPACE=" ++ m.ObjectMeta.Namespace ++ "\n" ++
         "MACHINE=$NAMESPACE\n" ++
         "MACHINE+=\"/\"\n" ++
         "MACHINE+=" ++ m.ObjectMeta.Name ++ "\n" ++
         "CONTROL_PLANE_VERSION=" ++ m.Spec.Versions.ControlPlane ++ "\n" ++
         "CLUSTER_DNS_DOMAIN=" ++ c.Spec.ClusterNetwork.ServiceDomain ++ "\n" ++
         "POD_CIDR=" ++ podCIDR ++ "\n" ++
         "SERVICE_CIDR=" ++ serviceCIDR ++ "\n" ++
         metadata, none) := by
  refine ⟨_, _, subnet_eq _, subnet_eq _, ?_⟩
  rw [masterUserdata_some]
  rfl

/-- C2: for a cluster that is not nil and whose API-endpoint list starts with
`(host, port)`, a machine that is not nil, and any token and metadata, `nodeUserdata`
returns a nil error and the script is exactly the eleven lines of the node template, each
ended by a newline, with `MASTER=host:port` (the port in decimal) and the other fields
inserted unchanged, followed by the metadata; the endpoints after the first do not occur
in the result. -/
theorem nodeUserdata_script (c : Cluster) (m : Machine) (token metadata : String)
    (host : String) (port : Int) (rest : List APIEndpoint)
    (h : c.Status.APIEndpoints = { Host := host, Port := port } :: rest) :
    ∃ podCIDR serviceCIDR,
      subnet c.Spec.ClusterNetwork.Pods = .ret podCIDR ∧
      subnet c.Spec.ClusterNetwork.Services = .ret serviceCIDR ∧
      nodeUserdata (some c) (some m) token metadata = .ret
        ("#!/bin/bash\n" ++
         "KUBELET_VERSION=" ++ m.Spec.Versions.Kubelet ++ "\n" ++
         "MASTER=" ++ (host ++ ":" ++ ((if port < 0 then "-" else "") ++
            String.mk ((decimalDigits port.natAbs).map digitChar))) ++ "\n" ++
         "TOKEN=" ++ token ++ "\n" ++
         "NAMESPACE=" ++ m.ObjectMeta.Namespace ++ "\n" ++
         "MACHINE=$NAMESPACE\n" ++
         "MACHINE+=\"/\"\n" ++
         "MACHINE+=" ++ m.ObjectMeta.Name ++ "\n" ++
         "CLUSTER_DNS_DOMAIN=" ++ c.Spec.ClusterNetwork.ServiceDomain ++ "\n" ++
         "POD_CIDR=" ++ podCIDR ++ "\n" ++
         "SERVICE_CIDR=" ++ serviceCIDR ++ "\n" ++
         metadata, none) := by
  refine ⟨_, _, subnet_eq _, subnet_eq _, ?_⟩
  rw [nodeUserdata_some c m token metadata _ rest h, ← fmtInteger_eq]
  rfl

/-- Witness of C2 on the example cluster: only `1.2.3.4:6443` is rendered. -/
theorem nodeUserdata_script_witness :
    exampleCluster.Status.APIEndpoints
        = { Host := "1.2.3.4", Port := 6443 } :: [{ Host := "5.6.7.8", Port := 443 }] ∧
    ∃ s, nodeUserdata (some exampleCluster) (some exampleMachine) "abcdef.0123456789abcdef" ""
        = .ret (s, none) := by
  refine ⟨rfl, ?_⟩
  obtain ⟨_, _, _, _, h⟩ := nodeUserdata_script exampleCluster exampleMachine
    "abcdef.0123456789abcdef" "" "1.2.3.4" 6443 [{ Host := "5.6.7.8", Port := 443 }] rfl
  exact ⟨_, h⟩

/-- C5: `subnet` never faults; it returns the empty string for an empty list of CIDR
blocks and the first block, unchanged, otherwise. -/
theorem subnet_total (netRange : NetworkRanges) :
    subnet netRange = .ret
      (match netRange.CIDRBlocks with
       | [] => ""
       | block :: _ => block) := by
  obtain ⟨blocks⟩ := netRange
  cases blocks <;> simp [subnet, index]

/-- C6: `endpoint` is the host, a colon, and the port in base 10: an optional `-` and the
digits `ds` of the magnitude, most significant first, with no leading zero (the only
rendering that starts with `0` is `0` itself); `1.2.3.4` with port 6443 gives
`1.2.3.4:6443`. -/
theorem endpoint_decimal (host : String) (port : Int) :
    (∃ ds : List Nat,
      ds ≠ [] ∧ ds.all (fun d => decide (d < 10)) = true ∧
      (ds.head? ≠ some 0 ∨ ds = [0]) ∧
      Nat.ofDigits 10 ds.reverse = port.natAbs ∧
      endpoint { Host := host, Port := port }
        = host ++ ":" ++ ((if port < 0 then "-" else "") ++ String.mk (ds.map digitChar))) ∧
    endpoint { Host := "1.2.3.4", Port := 6443 } = "1.2.3.4:6443" := by
  refine ⟨⟨decimalDigits port.natAbs, decimalDigits_ne_nil _, ?_, ?_, decimalDigits_value _, ?_⟩, ?_⟩
  · simpa using decimalDigits_lt port.natAbs
  · by_cases h0 : (decimalDigits port.natAbs).head? = some 0
    · exact Or.inr (decimalDigits_head _ h0)
    · exact Or.inl h0
  · simp only [endpoint, fmtInteger_eq]
  · decide

/-- C3: when a builder returns a script `s` with a nil error for the metadata `metadata`,
it also succeeds for the empty metadata, with a script `s0`, and `s = s0 ++ metadata`:
the script ends with the metadata, and `s0` ends with the newline that closes the
`SERVICE_CIDR=` line, so nothing stands between that newline and the metadata. -/
theorem userdata_appends_metadata
    (build : Option Cluster → Option Machine → String → String → Go Result)
    (hb : build = masterUserdata ∨ build = nodeUserdata)
    (cluster : Option Cluster) (machine : Option Machine) (token metadata s : String)
    (h : build cluster machine token metadata = .ret (s, none)) :
    ∃ s0 c pre serviceCIDR,
      cluster = some c ∧
      subnet c.Spec.ClusterNetwork.Services = .ret serviceCIDR ∧
      build cluster machine token "" = .ret (s0, none) ∧
      s = s0 ++ metadata ∧
      s0 = pre ++ "\nSERVICE_CIDR=" ++ serviceCIDR ++ "\n" := by
  rcases hb with rfl | rfl
  · cases cluster with
    | none => simp [masterUserdata_nil_cluster] at h
    | some c =>
      cases machine with
      | none => simp [masterUserdata_nil_machine] at h
      | some m =>
        simp only [masterUserdata_some, Go.ret.injEq, Prod.mk.injEq, and_true] at h
        obtain ⟨pre, hpre⟩ := masterScript_ends c m token
        exact ⟨masterScript c m token, c, pre, _, rfl, subnet_eq _,
          by simp [masterUserdata_some], h.symm, hpre⟩
  · cases cluster with
    | none => simp [nodeUserdata_nil_cluster] at h
    | some c =>
      cases hep : c.Status.APIEndpoints with
      | nil => simp [nodeUserdata_no_endpoint c machine token metadata hep] at h
      | cons e rest =>
        cases machine with
        | none => simp [nodeUserdata_nil_machine c token metadata e rest hep] at h
        | some m =>
          simp only [nodeUserdata_some c m token metadata e rest hep, Go.ret.injEq,
            Prod.mk.injEq, and_true] at h
          obtain ⟨pre, hpre⟩ := nodeScript_ends c m token (endpoint e)
          exact ⟨nodeScript c m token (endpoint e), c, pre, _, rfl, subnet_eq _,
            by simp [nodeUserdata_some c m token "" e rest hep], h.symm, hpre⟩

set_option maxRecDepth 100000 in
/-- Witness of C3: the master script for the metadata `extra: true` and a newline. -/
theorem userdata_appends_metadata_witness :
    masterUserdata (some exampleCluster) (some exampleMachine) "abcdef.0123456789abcdef"
        "extra: true\n"
      = .ret ("#!/bin/bash\nKUBELET_VERSION=1.9.4\nTOKEN=abcdef.0123456789abcdef\nPORT=443\nNAMESPACE=default\nMACHINE=$NAMESPACE\nMACHINE+=\"/\"\nMACHINE+=node-1\nCONTROL_PLANE_VERSION=1.9.4\nCLUSTER_DNS_DOMAIN=cluster.local\nPOD_CIDR=10.0.0.0/16\nSERVICE_CIDR=10.96.0.0/12\nextra: true\n", none) ∧
    ∃ s0, masterUserdata (some exampleCluster) (some exampleMachine)
        "abcdef.0123456789abcdef" "" = .ret (s0, none) ∧
      "#!/bin/bash\nKUBELET_VERSION=1.9.4\nTOKEN=abcdef.0123456789abcdef\nPORT=443\nNAMESPACE=default\nMACHINE=$NAMESPACE\nMACHINE+=\"/\"\nMACHINE+=node-1\nCONTROL_PLANE_VERSION=1.9.4\nCLUSTER_DNS_DOMAIN=cluster.local\nPOD_CIDR=10.0.0.0/16\nSERVICE_CIDR=10.96.0.0/12\nextra: true\n"
        = s0 ++ "extra: true\n" := by
  refine ⟨rfl, ?_⟩
  obtain ⟨s0, _, _, _, _, _, h0, hs, _⟩ := userdata_appends_metadata masterUserdata
    (Or.inl rfl) (some exampleCluster) (some exampleMachine) "abcdef.0123456789abcdef"
    "extra: true\n" _ rfl
  exact ⟨s0, h0, hs⟩

set_option maxRecDepth 100000 in
/-- Counterexample to C4 as stated: with a metadata line that begins with
`CONTROL_PLANE_VERSION=`, the node script of a cluster with API endpoints has a line
beginning with `CONTROL_PLANE_VERSION=`. -/
theorem nodeUserdata_controlPlaneLine_counterexample :
    exampleCluster.Status.APIEndpoints ≠ [] ∧
    nodeUserdata (some exampleCluster) (some exampleMachine) "abcdef.0123456789abcdef"
        "CONTROL_PLANE_VERSION=1.9.4\n"
      = .ret ("#!/bin/bash\nKUBELET_VERSION=1.9.4\nMASTER=1.2.3.4:6443\nTOKEN=abcdef.0123456789abcdef\nNAMESPACE=default\nMACHINE=$NAMESPACE\nMACHINE+=\"/\"\nMACHINE+=node-1\nCLUSTER_DNS_DOMAIN=cluster.local\nPOD_CIDR=10.0.0.0/16\nSERVICE_CIDR=10.96.0.0/12\nCONTROL_PLANE_VERSION=1.9.4\n", none) ∧
    hasLineWithPrefix "CONTROL_PLANE_VERSION="
      "#!/bin/bash\nKUBELET_VERSION=1.9.4\nMASTER=1.2.3.4:6443\nTOKEN=abcdef.0123456789abcdef\nNAMESPACE=default\nMACHINE=$NAMESPACE\nMACHINE+=\"/\"\nMACHINE+=node-1\nCLUSTER_DNS_DOMAIN=cluster.local\nPOD_CIDR=10.0.0.0/16\nSERVICE_CIDR=10.96.0.0/12\nCONTROL_PLANE_VERSION=1.9.4\n"
      = true := by
  refine ⟨by decide, rfl, by decide⟩

/-- C4, amended: the master script always has a line beginning with
`CONTROL_PLANE_VERSION=`. The node script of a cluster with an API endpoint always has a
line beginning with `MASTER=`; it has no line beginning with `CONTROL_PLANE_VERSION=`
exactly when no line of the metadata begins with it and none of the inserted texts
(kubelet version, master endpoint, token, namespace, machine name, service domain, pod
subnet, service subnet) has a line after its first newline that begins with it. -/
theorem userdata_controlPlaneLine (c : Cluster) (m : Machine) (token metadata : String) :
    (∃ s, masterUserdata (some c) (some m) token metadata = .ret (s, none) ∧
      hasLineWithPrefix "CONTROL_PLANE_VERSION=" s = true) ∧
    (∀ e rest, c.Status.APIEndpoints = e :: rest →
      ∃ s podCIDR serviceCIDR,
        subnet c.Spec.ClusterNetwork.Pods = .ret podCIDR ∧
        subnet c.Spec.ClusterNetwork.Services = .ret serviceCIDR ∧
        nodeUserdata (some c) (some m) token metadata = .ret (s, none) ∧
        hasLineWithPrefix "MASTER=" s = true ∧
        (hasLineWithPrefix "CONTROL_PLANE_VERSION=" s = false ↔
          (hasLineWithPrefix "CONTROL_PLANE_VERSION=" metadata = false ∧
           continuationHasPrefix "CONTROL_PLANE_VERSION=" m.Spec.Versions.Kubelet = false ∧
           continuationHasPrefix "CONTROL_PLANE_VERSION=" (endpoint e) = false ∧
           continuationHasPrefix "CONTROL_PLANE_VERSION=" token = false ∧
           continuationHasPrefix "CONTROL_PLANE_VERSION=" m.ObjectMeta.Namespace = false ∧
           continuationHasPrefix "CONTROL_PLANE_VERSION=" m.ObjectMeta.Name = false ∧
           continuationHasPrefix "CONTROL_PLANE_VERSION="
             c.Spec.ClusterNetwork.ServiceDomain = false ∧
           continuationHasPrefix "CONTROL_PLANE_VERSION=" podCIDR = false ∧
           continuationHasPrefix "CONTROL_PLANE_VERSION=" serviceCIDR = false))) := by
  constructor
  · refine ⟨_, masterUserdata_some c m token metadata, ?_⟩
    rw [masterScript_eq_joinLines, hasLineWithPrefix_joinLines]
    simp [masterLines, hasLineWithPrefix_self "CONTROL_PLANE_VERSION=" _ (by decide)]
  · intro e rest hep
    refine ⟨_, _, _, subnet_eq _, subnet_eq _, nodeUserdata_some c m token metadata e rest hep,
      ?_, ?_⟩
    · rw [nodeScript_eq_joinLines, hasLineWithPrefix_joinLines]
      simp [nodeLines, hasLineWithPrefix_self "MASTER=" _ (by decide)]
    · rw [nodeScript_controlPlaneLine]
      simp only [Bool.or_eq_false_iff]
      tauto

/-- Witness of C4, amended, on the example cluster with empty metadata: the node script
has a `MASTER=` line and no line beginning with `CONTROL_PLANE_VERSION=`. -/
theorem userdata_controlPlaneLine_witness :
    exampleCluster.Status.APIEndpoints
        = { Host := "1.2.3.4", Port := 6443 } :: [{ Host := "5.6.7.8", Port := 443 }] ∧
    ∃ s, nodeUserdata (some exampleCluster) (some exampleMachine) "abcdef.0123456789abcdef" ""
        = .ret (s, none) ∧
      hasLineWithPrefix "MASTER=" s = true ∧
      hasLineWithPrefix "CONTROL_PLANE_VERSION=" s = false := by
  refine ⟨rfl, ?_⟩
  obtain ⟨s, podCIDR, serviceCIDR, hp, hsv, hs, hm, hiff⟩ :=
    (userdata_controlPlaneLine exampleCluster exampleMachine "abcdef.0123456789abcdef" "").2
      { Host := "1.2.3.4", Port := 6443 } [{ Host := "5.6.7.8", Port := 443 }] rfl
  have hp' : podCIDR = "10.0.0.0/16" := by
    have h := subnet_eq exampleCluster.Spec.ClusterNetwork.Pods
    rw [hp] at h
    exact Go.ret.inj h
  have hsv' : serviceCIDR = "10.96.0.0/12" := by
    have h := subnet_eq exampleCluster.Spec.ClusterNetwork.Services
    rw [hsv] at h
    exact Go.ret.inj h
  subst hp' hsv'
  exact ⟨s, hs, hm, hiff.mpr (by decide)⟩

/-- C7: for both builders, a cluster and a machine that are not nil (and, for the node
builder, at least one API endpoint), the builder returns a script with a nil error. When
the pod list is empty the script has the line `POD_CIDR=` with nothing before the newline;
when its first block is `p` the text `POD_CIDR=p` stands at the start of a line and is
ended by a newline, and it is a line of the script when `p` has no newline. The same holds
for the service list and `SERVICE_CIDR=`. -/
theorem userdata_cidr_lines
    (build : Option Cluster → Option Machine → String → String → Go Result)
    (hb : build = masterUserdata ∨ build = nodeUserdata)
    (c : Cluster) (m : Machine) (token metadata : String)
    (hep : build = nodeUserdata → c.Status.APIEndpoints ≠ []) :
    ∃ s, build (some c) (some m) token metadata = .ret (s, none) ∧
      (match c.Spec.ClusterNetwork.Pods.CIDRBlocks with
       | [] => occursAsLine s "POD_CIDR=" ∧ "POD_CIDR=".data ∈ scriptLines s
       | p :: _ =>
         occursAsLine s ("POD_CIDR=" ++ p) ∧
         ('\n' ∉ p.data → ("POD_CIDR=" ++ p).data ∈ scriptLines s)) ∧
      (match c.Spec.ClusterNetwork.Services.CIDRBlocks with
       | [] => occursAsLine s "SERVICE_CIDR=" ∧ "SERVICE_CIDR=".data ∈ scriptLines s
       | sv :: _ =>
         occursAsLine s ("SERVICE_CIDR=" ++ sv) ∧
         ('\n' ∉ sv.data → ("SERVICE_CIDR=" ++ sv).data ∈ scriptLines s)) := by
  rcases hb with rfl | rfl
  · refine ⟨_, masterUserdata_some c m token metadata, ?_, ?_⟩
    · apply cidr_line_cases _ "POD_CIDR=" (by decide)
      rw [masterScript_eq_joinLines]
      exact occursAsLine_joinLines _ _ _ (by simp [masterLines])
    · apply cidr_line_cases _ "SERVICE_CIDR=" (by decide)
      rw [masterScript_eq_joinLines]
      exact occursAsLine_joinLines _ _ _ (by simp [masterLines])
  · cases h : c.Status.APIEndpoints with
    | nil => exact absurd h (hep rfl)
    | cons e rest =>
      refine ⟨_, nodeUserdata_some c m token metadata e rest h, ?_, ?_⟩
      · apply cidr_line_cases _ "POD_CIDR=" (by decide)
        rw [nodeScript_eq_joinLines]
        exact occursAsLine_joinLines _ _ _ (by simp [nodeLines])
      · apply cidr_line_cases _ "SERVICE_CIDR=" (by decide)
        rw [nodeScript_eq_joinLines]
        exact occursAsLine_joinLines _ _ _ (by simp [nodeLines])

/-- Witness of C7: for the pod block `10.0.0.0/16` and the service block `10.96.0.0/12`
the master script has the lines `POD_CIDR=10.0.0.0/16` and `SERVICE_CIDR=10.96.0.0/12`;
with no pod and no service block it has the lines `POD_CIDR=` and `SERVICE_CIDR=`. -/
theorem userdata_cidr_lines_witness :
    (∃ s, masterUserdata (some exampleCluster) (some exampleMachine)
        "abcdef.0123456789abcdef" "" = .ret (s, none) ∧
      "POD_CIDR=10.0.0.0/16".data ∈ scriptLines s ∧
      "SERVICE_CIDR=10.96.0.0/12".data ∈ scriptLines s) ∧
    (∃ s, masterUserdata (some exampleEmptyCluster) (some exampleMachine)
        "abcdef.0123456789abcdef" "" = .ret (s, none) ∧
      "POD_CIDR=".data ∈ scriptLines s ∧ "SERVICE_CIDR=".data ∈ scriptLines s) := by
  constructor
  · obtain ⟨s, hs, hp, hsv⟩ := userdata_cidr_lines masterUserdata (Or.inl rfl) exampleCluster
      exampleMachine "abcdef.0123456789abcdef" "" (fun _ => by decide)
    exact ⟨s, hs, hp.2 (by decide), hsv.2 (by decide)⟩
  · obtain ⟨s, hs, hp, hsv⟩ := userdata_cidr_lines masterUserdata (Or.inl rfl)
      exampleEmptyCluster exampleMachine "abcdef.0123456789abcdef" ""
      (fun h => absurd h masterUserdata_ne_nodeUserdata)
    exact ⟨s, hs, hp.2, hsv.2⟩

/-- C8: for a cluster that is not nil, `nodeUserdata` faults exactly on an empty list of
API endpoints. With an empty list the access to element 0 is out of range for every
machine, token and metadata: no script and no error value is returned. With at least one
endpoint no fault occurs, and for a machine that is not nil a script is returned with a
nil error. -/
theorem nodeUserdata_endpoint_precondition (c : Cluster) (machine : Option Machine)
    (token metadata : String) :
    match c.Status.APIEndpoints with
    | [] => nodeUserdata (some c) machine token metadata = .panic (.indexOutOfRange 0 0)
    | _ :: _ =>
      (∃ r, nodeUserdata (some c) machine token metadata = .ret r) ∧
      (∀ m, ∃ s, nodeUserdata (some c) (some m) token metadata = .ret (s, none)) := by
  cases h : c.Status.APIEndpoints with
  | nil => exact nodeUserdata_no_endpoint c machine token metadata h
  | cons e rest =>
    refine ⟨?_, fun m => ⟨_, nodeUserdata_some c m token metadata e rest h⟩⟩
    cases machine with
    | none => exact ⟨_, nodeUserdata_nil_machine c token metadata e rest h⟩
    | some m => exact ⟨_, nodeUserdata_some c m token metadata e rest h⟩

/-- C9: when a builder returns an error that is not nil, the returned script is the empty
string, whatever was rendered before the failure and whatever the metadata, and the
message of the error begins with `failed to execute user-data template`. -/
theorem userdata_error_empty_script
    (build : Option Cluster → Option Machine → String → String → Go Result)
    (hb : build = masterUserdata ∨ build = nodeUserdata)
    (cluster : Option Cluster) (machine : Option Machine) (token metadata s err : String)
    (h : build cluster machine token metadata = .ret (s, some err)) :
    s = "" ∧ "failed to execute user-data template".data <+: err.data := by
  rcases hb with rfl | rfl
  · cases cluster with
    | none => simp [masterUserdata_nil_cluster] at h
    | some c =>
      cases machine with
      | some m => simp [masterUserdata_some] at h
      | none =>
        simp only [masterUserdata_nil_machine, Go.ret.injEq, Prod.mk.injEq,
          Option.some.injEq] at h
        obtain ⟨h1, h2⟩ := h
        exact ⟨h1.symm, h2 ▸ executeError_starts _⟩
  · cases cluster with
    | none => simp [nodeUserdata_nil_cluster] at h
    | some c =>
      cases hep : c.Status.APIEndpoints with
      | nil => simp [nodeUserdata_no_endpoint c machine token metadata hep] at h
      | cons e rest =>
        cases machine with
        | some m => simp [nodeUserdata_some c m token metadata e rest hep] at h
        | none =>
          simp only [nodeUserdata_nil_machine c token metadata e rest hep, Go.ret.injEq,
            Prod.mk.injEq, Option.some.injEq] at h
          obtain ⟨h1, h2⟩ := h
          exact ⟨h1.symm, h2 ▸ executeError_starts _⟩

set_option maxRecDepth 100000 in
/-- Witness of C9: a nil machine with the example cluster makes both templates fail at
their first field; the script is empty although one line was already rendered. -/
theorem userdata_error_empty_script_witness :
    masterUserdata (some exampleCluster) none "abcdef.0123456789abcdef" "extra: true\n"
      = .ret ("", some (nilMachineError "masterEnvironment")) ∧
    ("" = "" ∧
      "failed to execute user-data template".data
        <+: (nilMachineError "masterEnvironment").data) ∧
    (Parse "masterEnvironment" masterEnvironmentVariables).toOption.map
      (fun t => t.Execute "" (userdataParams.toValue
        { Machine := none, Cluster := some exampleCluster, Token := "abcdef.0123456789abcdef",
          MasterEndpoint := "", PodCIDR := "10.0.0.0/16", ServiceCIDR := "10.96.0.0/12" }))
      = some ("#!/bin/bash\nKUBELET_VERSION=",
          some "template: masterEnvironment:2:27: executing \"masterEnvironment\" at <.Machine.Spec.Versions.Kubelet>: nil pointer evaluating *v1alpha1.Machine.Spec") :=
  ⟨rfl, userdata_error_empty_script masterUserdata (Or.inl rfl) (some exampleCluster) none
    "abcdef.0123456789abcdef" "extra: true\n" "" (nilMachineError "masterEnvironment") rfl, rfl⟩

/-- C10: two clusters with the same status and service domain whose pod lists have the
same first block and whose service lists have the same first block (or are both empty)
give the same result in both builders, for every machine, token and metadata. -/
theorem userdata_first_block_only
    (build : Option Cluster → Option Machine → String → String → Go Result)
    (hb : build = masterUserdata ∨ build = nodeUserdata)
    (c c' : Cluster) (machine : Option Machine) (token metadata : String)
    (hstatus : c.Status = c'.Status)
    (hdomain : c.Spec.ClusterNetwork.ServiceDomain = c'.Spec.ClusterNetwork.ServiceDomain)
    (hpods : c.Spec.ClusterNetwork.Pods.CIDRBlocks.head?
      = c'.Spec.ClusterNetwork.Pods.CIDRBlocks.head?)
    (hservices : c.Spec.ClusterNetwork.Services.CIDRBlocks.head?
      = c'.Spec.ClusterNetwork.Services.CIDRBlocks.head?) :
    build (some c) machine token metadata = build (some c') machine token metadata := by
  have hp := firstBlock_congr _ _ hpods
  have hs := firstBlock_congr _ _ hservices
  rcases hb with rfl | rfl
  · cases machine with
    | none => rw [masterUserdata_nil_machine, masterUserdata_nil_machine]
    | some m =>
      rw [masterUserdata_some, masterUserdata_some]
      simp only [masterScript, hdomain, hp, hs]
  · cases hep : c.Status.APIEndpoints with
    | nil =>
      rw [nodeUserdata_no_endpoint c _ _ _ hep,
        nodeUserdata_no_endpoint c' _ _ _ (hstatus ▸ hep)]
    | cons e rest =>
      have hep' : c'.Status.APIEndpoints = e :: rest := hstatus ▸ hep
      cases machine with
      | none =>
        rw [nodeUserdata_nil_machine c _ _ e rest hep,
          nodeUserdata_nil_machine c' _ _ e rest hep']
      | some m =>
        rw [nodeUserdata_some c m _ _ e rest hep, nodeUserdata_some c' m _ _ e rest hep']
        simp only [nodeScript, hdomain, hp, hs]

/-- Witness of C10: the two example clusters differ only after the first block of each
range and give the same node script. -/
theorem userdata_first_block_only_witness :
    exampleCluster ≠ exampleClusterOtherBlocks ∧
    nodeUserdata (some exampleCluster) (some exampleMachine) "abcdef.0123456789abcdef" ""
      = nodeUserdata (some exampleClusterOtherBlocks) (some exampleMachine)
          "abcdef.0123456789abcdef" "" :=
  ⟨by decide, userdata_first_block_only nodeUserdata (Or.inr rfl) exampleCluster
    exampleClusterOtherBlocks (some exampleMachine) "abcdef.0123456789abcdef" ""
    rfl rfl rfl rfl⟩

set_option maxRecDepth 100000 in
/-- Counterexample to C11 as stated: on the example cluster and machine the master script
has the line `PORT=443` and the node script has not, and the lines of the node script
without the `MASTER=` line are not the lines of the master script without one line. -/
theorem nodeUserdata_lines_counterexample :
    exampleCluster.Status.APIEndpoints ≠ [] ∧
    masterUserdata (some exampleCluster) (some exampleMachine) "abcdef.0123456789abcdef" ""
      = .ret (exampleMasterScript, none) ∧
    nodeUserdata (some exampleCluster) (some exampleMachine) "abcdef.0123456789abcdef" ""
      = .ret (exampleNodeScript, none) ∧
    "PORT=443".data ∈ scriptLines exampleMasterScript ∧
    "PORT=443".data ∉ scriptLines exampleNodeScript ∧
    ¬ ∃ deleted M, removedOne deleted (scriptLines exampleMasterScript) M ∧
        removedOne "MASTER=1.2.3.4:6443".data (scriptLines exampleNodeScript) M := by
  refine ⟨by decide, rfl, rfl, by decide, by decide, ?_⟩
  rintro ⟨deleted, M, ⟨a, b, h1, h2⟩, ⟨a', b', h3, h4⟩⟩
  have l1 : (scriptLines exampleMasterScript).length = 13 := by decide
  have l2 : (scriptLines exampleNodeScript).length = 12 := by decide
  rw [h1] at l1
  rw [h3] at l2
  have l3 := congrArg List.length h2
  have l4 := congrArg List.length h4
  simp only [List.length_append, List.length_cons] at l1 l2 l3 l4
  omega

/-- C11, amended: for a cluster with a first API endpoint `e` and a machine that is not nil,
the lines of the node script are the lines of the master script for the same arguments
with the text `MASTER=` and `endpoint e` inserted in front of the token line, the line
`PORT=443` deleted and the text `CONTROL_PLANE_VERSION=` with the control-plane version
deleted; every other line is present, unchanged and in the same order. The inserted and
the deleted text are one line each when the host and the control-plane version have no
newline. -/
theorem nodeUserdata_lines_from_master (c : Cluster) (m : Machine) (token metadata : String)
    (e : APIEndpoint) (rest : List APIEndpoint) (hep : c.Status.APIEndpoints = e :: rest) :
    ∃ sm sn A T B C,
      masterUserdata (some c) (some m) token metadata = .ret (sm, none) ∧
      nodeUserdata (some c) (some m) token metadata = .ret (sn, none) ∧
      scriptLines sm = A ++ T ++ ["PORT=443".data] ++ B
        ++ scriptLines ("CONTROL_PLANE_VERSION=" ++ m.Spec.Versions.ControlPlane) ++ C ∧
      scriptLines sn = A ++ scriptLines ("MASTER=" ++ endpoint e) ++ T ++ B ++ C ∧
      T = scriptLines ("TOKEN=" ++ token) ∧
      ('\n' ∉ e.Host.data →
        scriptLines ("MASTER=" ++ endpoint e) = [("MASTER=" ++ endpoint e).data]) ∧
      ('\n' ∉ m.Spec.Versions.ControlPlane.data →
        scriptLines ("CONTROL_PLANE_VERSION=" ++ m.Spec.Versions.ControlPlane)
          = [("CONTROL_PLANE_VERSION=" ++ m.Spec.Versions.ControlPlane).data]) := by
  have hport : scriptLines "PORT=443" = ["PORT=443".data] := by decide
  refine ⟨_, _,
    scriptLines "#!/bin/bash" ++ scriptLines ("KUBELET_VERSION=" ++ m.Spec.Versions.Kubelet),
    scriptLines ("TOKEN=" ++ token),
    scriptLines ("NAMESPACE=" ++ m.ObjectMeta.Namespace) ++ scriptLines "MACHINE=$NAMESPACE"
      ++ scriptLines "MACHINE+=\"/\"" ++ scriptLines ("MACHINE+=" ++ m.ObjectMeta.Name),
    scriptLines ("CLUSTER_DNS_DOMAIN=" ++ c.Spec.ClusterNetwork.ServiceDomain)
      ++ scriptLines ("POD_CIDR=" ++ firstBlock c.Spec.ClusterNetwork.Pods)
      ++ scriptLines ("SERVICE_CIDR=" ++ firstBlock c.Spec.ClusterNetwork.Services)
      ++ scriptLines metadata,
    masterUserdata_some c m token metadata, nodeUserdata_some c m token metadata e rest hep,
    ?_, ?_, rfl, ?_, ?_⟩
  · rw [masterScript_eq_joinLines, scriptLines_joinLines]
    simp [masterLines, hport, List.append_assoc]
  · rw [nodeScript_eq_joinLines, scriptLines_joinLines]
    simp [nodeLines, List.append_assoc]
  · intro hh
    apply scriptLines_of_no_newline
    simp only [String.data_append, List.mem_append, not_or]
    exact ⟨by decide, endpoint_no_newline e hh⟩
  · intro hcp
    apply scriptLines_of_no_newline
    simp only [String.data_append, List.mem_append, not_or]
    exact ⟨by decide, hcp⟩

/-- Witness of C11, amended, on the example cluster and machine. -/
theorem nodeUserdata_lines_from_master_witness :
    exampleCluster.Status.APIEndpoints
        = { Host := "1.2.3.4", Port := 6443 } :: [{ Host := "5.6.7.8", Port := 443 }] ∧
    ∃ sm sn, masterUserdata (some exampleCluster) (some exampleMachine)
        "abcdef.0123456789abcdef" "" = .ret (sm, none) ∧
      nodeUserdata (some exampleCluster) (some exampleMachine)
        "abcdef.0123456789abcdef" "" = .ret (sn, none) ∧
      (scriptLines sm).length = (scriptLines sn).length + 1 := by
  refine ⟨rfl, ?_⟩
  obtain ⟨sm, sn, A, T, B, C, hm, hn, hlm, hln, _, hins, hdel⟩ :=
    nodeUserdata_lines_from_master exampleCluster exampleMachine "abcdef.0123456789abcdef" ""
      { Host := "1.2.3.4", Port := 6443 } [{ Host := "5.6.7.8", Port := 443 }] rfl
  refine ⟨sm, sn, hm, hn, ?_⟩
  rw [hlm, hln, hins (by decide), hdel (by decide)]
  simp only [List.length_append, List.length_cons, List.length_nil]
  omega

/-- C12: two clusters with the same spec, whatever their API endpoints, give the same
result of `masterUserdata` for every machine, token and metadata, and for a machine that is
not nil this result is a script with a nil error. The parameter record `masterParams` that
`masterUserdata` builds and executes the master template with holds the cluster, the
machine, the token, the two subnets and the empty string as master endpoint. -/
theorem masterUserdata_ignores_endpoints (c c' : Cluster) (machine : Option Machine)
    (token metadata : String) (hspec : c.Spec = c'.Spec) :
    masterUserdata (some c) machine token metadata
      = masterUserdata (some c') machine token metadata ∧
    (∀ m, ∃ s, masterUserdata (some c) (some m) token metadata = .ret (s, none) ∧
      masterUserdata (some c') (some m) token metadata = .ret (s, none)) ∧
    (∃ (params : userdataParams) (tmpl : Template),
      masterParams (some c) machine token = .ret params ∧
      Parse "masterEnvironment" masterEnvironmentVariables = .ok tmpl ∧
      params.MasterEndpoint = "" ∧
      params.Cluster = some c ∧ params.Machine = machine ∧ params.Token = token ∧
      subnet c.Spec.ClusterNetwork.Pods = .ret params.PodCIDR ∧
      subnet c.Spec.ClusterNetwork.Services = .ret params.ServiceCIDR ∧
      masterUserdata (some c) machine token metadata
        = (match tmpl.Execute "" params.toValue with
           | (_, some err) => Go.ret ("", some (executeError err))
           | (b, none) => Go.ret (b ++ metadata, none))) := by
  refine ⟨?_, fun m => ⟨masterScript c m token ++ metadata, masterUserdata_some c m _ _, ?_⟩, ?_⟩
  · cases machine with
    | none => rw [masterUserdata_nil_machine, masterUserdata_nil_machine]
    | some m =>
      rw [masterUserdata_some, masterUserdata_some]
      simp only [masterScript, hspec]
  · rw [masterUserdata_some]
    simp only [masterScript, hspec]
  · refine ⟨userdataParams.mk machine (some c) token "" (firstBlock c.Spec.ClusterNetwork.Pods)
        (firstBlock c.Spec.ClusterNetwork.Services), _, ?_,
      Parse_masterEnvironment, rfl, rfl, rfl, rfl, subnet_eq _, subnet_eq _, ?_⟩
    · simp only [masterParams, deref, subnet_eq, Go.ret_bind, Go.pure_eq]
    · simp only [masterUserdata, masterParams, deref, subnet_eq, Parse_masterEnvironment, Must,
        Go.ret_bind, Go.pure_eq]

/-- Witness of C12: the example cluster and the example cluster without API endpoints give
the same master script. -/
theorem masterUserdata_ignores_endpoints_witness :
    exampleCluster.Status ≠ exampleClusterNoEndpoints.Status ∧
    masterUserdata (some exampleCluster) (some exampleMachine) "abcdef.0123456789abcdef" ""
      = masterUserdata (some exampleClusterNoEndpoints) (some exampleMachine)
          "abcdef.0123456789abcdef" "" :=
  ⟨by decide, (masterUserdata_ignores_endpoints exampleCluster exampleClusterNoEndpoints
    (some exampleMachine) "abcdef.0123456789abcdef" "" rfl).1⟩

set_option maxRecDepth 100000 in
/-- C13: when the kubelet version, the control-plane version, the token, the namespace,
the machine name, the service domain and the first pod and service blocks have no newline
and the metadata is empty, the master script is exactly 12 lines, each ended by a newline,
whose i-th line begins with the i-th fixed prefix of the master template; when the host of
the first API endpoint has no newline either, the node script is exactly 11 such lines for
the node template. With the token `abcdef` newline `0123` the example scripts have 13 and
12 lines. -/
theorem userdata_line_structure (c : Cluster) (m : Machine) (token : String)
    (hkubelet : '\n' ∉ m.Spec.Versions.Kubelet.data)
    (hcontrol : '\n' ∉ m.Spec.Versions.ControlPlane.data)
    (htoken : '\n' ∉ token.data)
    (hnamespace : '\n' ∉ m.ObjectMeta.Namespace.data)
    (hname : '\n' ∉ m.ObjectMeta.Name.data)
    (hdomain : '\n' ∉ c.Spec.ClusterNetwork.ServiceDomain.data)
    (hpods : ∀ p, c.Spec.ClusterNetwork.Pods.CIDRBlocks.head? = some p → '\n' ∉ p.data)
    (hservices : ∀ p, c.Spec.ClusterNetwork.Services.CIDRBlocks.head? = some p →
      '\n' ∉ p.data) :
    (∃ s L, masterUserdata (some c) (some m) token "" = .ret (s, none) ∧
      scriptLines s = L ++ [[]] ∧ L.length = 12 ∧
      List.Forall₂ (fun p l => p <+: l) (fixedPrefixes masterEnvironmentVariables) L) ∧
    (∀ e rest, c.Status.APIEndpoints = e :: rest → '\n' ∉ e.Host.data →
      ∃ s L, nodeUserdata (some c) (some m) token "" = .ret (s, none) ∧
        scriptLines s = L ++ [[]] ∧ L.length = 11 ∧
        List.Forall₂ (fun p l => p <+: l) (fixedPrefixes nodeEnvironmentVariables) L) ∧
    (∃ s L, masterUserdata (some exampleCluster) (some exampleMachine) "abcdef\n0123" ""
        = .ret (s, none) ∧ scriptLines s = L ++ [[]] ∧ L.length = 13) ∧
    (∃ s L, nodeUserdata (some exampleCluster) (some exampleMachine) "abcdef\n0123" ""
        = .ret (s, none) ∧ scriptLines s = L ++ [[]] ∧ L.length = 12) := by
  have hp := firstBlock_no_newline _ hpods
  have hs := firstBlock_no_newline _ hservices
  refine ⟨?_, ?_, ?_, ?_⟩
  · refine ⟨_, (masterLines c m token).map String.data, masterUserdata_some c m token "", ?_,
      by simp [masterLines], ?_⟩
    · rw [masterScript_eq_joinLines, scriptLines_joinLines_of_no_newline]
      intro l hl
      simp only [masterLines, List.mem_cons, List.mem_singleton, List.not_mem_nil,
        or_false] at hl
      rcases hl with h | h | h | h | h | h | h | h | h | h | h | h <;> subst h <;>
        simp only [String.data_append, List.mem_append, not_or] <;>
        first
          | decide
          | exact ⟨by decide, by assumption⟩
    · rw [fixedPrefixes_master]
      simp [masterLines, String.data_append]
  · intro e rest hep hhost
    have he := endpoint_no_newline e hhost
    refine ⟨_, (nodeLines c m token (endpoint e)).map String.data,
      nodeUserdata_some c m token "" e rest hep, ?_, by simp [nodeLines], ?_⟩
    · rw [nodeScript_eq_joinLines, scriptLines_joinLines_of_no_newline]
      intro l hl
      simp only [nodeLines, List.mem_cons, List.mem_singleton, List.not_mem_nil,
        or_false] at hl
      rcases hl with h | h | h | h | h | h | h | h | h | h | h <;> subst h <;>
        simp only [String.data_append, List.mem_append, not_or] <;>
        first
          | decide
          | exact ⟨by decide, by assumption⟩
    · rw [fixedPrefixes_node]
      simp [nodeLines, String.data_append]
  · exact ⟨_, (scriptLines (masterScript exampleCluster exampleMachine "abcdef\n0123"
      ++ "")).dropLast, masterUserdata_some _ _ _ _, by decide, by decide⟩
  · exact ⟨_, (scriptLines (nodeScript exampleCluster exampleMachine "abcdef\n0123"
      (endpoint { Host := "1.2.3.4", Port := 6443 }) ++ "")).dropLast,
      nodeUserdata_some _ _ _ _ _ _ rfl, by decide, by decide⟩

/-- Witness of C13 on the example cluster and machine: 12 and 11 lines. -/
theorem userdata_line_structure_witness :
    (∃ s L, masterUserdata (some exampleCluster) (some exampleMachine)
        "abcdef.0123456789abcdef" "" = .ret (s, none) ∧
      scriptLines s = L ++ [[]] ∧ L.length = 12) ∧
    (∃ s L, nodeUserdata (some exampleCluster) (some exampleMachine)
        "abcdef.0123456789abcdef" "" = .ret (s, none) ∧
      scriptLines s = L ++ [[]] ∧ L.length = 11) := by
  have h := userdata_line_structure exampleCluster exampleMachine "abcdef.0123456789abcdef"
    (by decide) (by decide) (by decide) (by decide) (by decide) (by decide)
    (by intro p hp; cases hp; decide) (by intro p hp; cases hp; decide)
  obtain ⟨⟨s, L, h1, h2, h3, _⟩, hnode, _, _⟩ := h
  obtain ⟨s', L', h1', h2', h3', _⟩ :=
    hnode { Host := "1.2.3.4", Port := 6443 } [{ Host := "5.6.7.8", Port := 443 }] rfl
      (by decide)
  exact ⟨⟨s, L, h1, h2, h3⟩, ⟨s', L', h1', h2', h3'⟩⟩

end machine
